import Mathlib

/-!
Verification of the message-preprocessing core of the `n8n-monique` service.

The Python sources under `app/services/analisador`, `app/utils` and `main.py`
are embedded shallowly: strings are Lean `String`s, Python substring tests
(`pat in s`) become `py_in`, Python `str.split()` / `str.strip()` become
`pySplit` / `pyStrip`, and dictionaries become association lists with
first-match lookup.  Stateful parts (result cache, metrics) are modelled by
explicit state passing.  External collaborators (the spaCy model, the learned
dictionary contents, the `unidecode` transliteration table) are parameters of
the embedding or finite tables modelled from the specification, as documented
on each definition.
-/

set_option maxRecDepth 100000

/-- Boolean prefix test on lists. -/
def listaPrefixo : List Char → List Char → Bool
  | [], _ => true
  | _ :: _, [] => false
  | a :: as, b :: bs => a == b && listaPrefixo as bs

/-- Boolean infix test on lists. -/
def listaInfixo : List Char → List Char → Bool
  | pat, [] => pat.isEmpty
  | pat, c :: cs => listaPrefixo pat (c :: cs) || listaInfixo pat cs

/-- Python `pat in s` (substring containment) on strings. -/
def py_in (pat s : String) : Bool := listaInfixo pat.data s.data

/-- Python `s.strip()`: remove leading and trailing whitespace. -/
def pyStrip (s : String) : String :=
  String.mk
    (((s.data.dropWhile Char.isWhitespace).reverse.dropWhile
      Char.isWhitespace).reverse)

/-- Splitter of `pySplit`: accumulate the current word, cut at whitespace. -/
def quebraEspacos : List Char → List Char → List String
  | [], acc => if acc.isEmpty then [] else [String.mk acc.reverse]
  | c :: cs, acc =>
    if c.isWhitespace then
      (if acc.isEmpty then quebraEspacos cs []
       else String.mk acc.reverse :: quebraEspacos cs [])
    else quebraEspacos cs (c :: acc)

/-- Python `s.split()`: split on whitespace runs, dropping empty pieces. -/
def pySplit (s : String) : List String := quebraEspacos s.data []

/-- Fuelled splitter of `pySplitOn` (the fuel, instantiated with the length
of the text, keeps the recursion structural). -/
def quebraSeparador (sep : List Char) : Nat → List Char → List Char →
    List (List Char)
  | _, [], acc => [acc.reverse]
  | 0, resto, acc => [acc.reverse ++ resto]
  | fuel + 1, c :: cs, acc =>
    if !sep.isEmpty && listaPrefixo sep (c :: cs) then
      acc.reverse :: quebraSeparador sep fuel ((c :: cs).drop sep.length) []
    else quebraSeparador sep fuel cs (c :: acc)

/-- Python `s.split(sep)` with a non-empty separator: empty pieces are
kept. -/
def pySplitOn (sep s : String) : List String :=
  (quebraSeparador sep.data s.data.length s.data []).map String.mk

/-- Python `s.endswith(t)`. -/
def pyEndsWith (t s : String) : Bool := listaPrefixo t.data.reverse s.data.reverse

/-- The `num_palavras` of `classificador.py`: word count of the normalized text. -/
def numPalavras (norm : String) : Nat := (pySplit norm).length

theorem py_in_refl_test : py_in "aba" "cabana" = true := by decide

/-! Section: Normalizer (`app/services/analisador/normalizador.py`)

`normalizar_texto` lower-cases the text with `str.lower()` and strips
diacritics with the `unidecode` dependency.  Both are modelled charwise on the
Latin alphabet the service works with. -/

/-- Case pairs of the accented Latin-1 letters used in Portuguese text. -/
def tabelaMaiusculas : List (Char × Char) :=
  [('Á', 'á'), ('À', 'à'), ('Â', 'â'), ('Ã', 'ã'), ('Ä', 'ä'),
   ('Ç', 'ç'), ('É', 'é'), ('È', 'è'), ('Ê', 'ê'), ('Í', 'í'),
   ('Ì', 'ì'), ('Ó', 'ó'), ('Ò', 'ò'), ('Ô', 'ô'), ('Õ', 'õ'),
   ('Ö', 'ö'), ('Ú', 'ú'), ('Ù', 'ù'), ('Ü', 'ü')]

/-- Model of Python `str.lower()` on one character: ASCII letters and the
accented Latin-1 letters used in Portuguese; other characters unchanged. -/
def pyLowerChar (c : Char) : Char :=
  if 'A' ≤ c && c ≤ 'Z' then Char.ofNat (c.toNat + 32)
  else match tabelaMaiusculas.find? (fun e => e.1 == c) with
    | some e => e.2
    | none => c

/-- Modelled from the spec: the transliteration table of the `unidecode`
dependency (not part of this repository), restricted to the lower-case
accented Latin letters plus a few common non-Latin transliterations the
library documents (sharp s, typographic punctuation).  Characters outside the
table are left unchanged by the model; theorems about `normalizar_texto`
restrict their inputs accordingly. -/
def tabelaUnidecode : List (Char × List Char) :=
  [ ('á', ['a']), ('à', ['a']), ('â', ['a']), ('ã', ['a']), ('ä', ['a']),
    ('ç', ['c']), ('é', ['e']), ('è', ['e']), ('ê', ['e']), ('í', ['i']),
    ('ì', ['i']), ('ó', ['o']), ('ò', ['o']), ('ô', ['o']), ('õ', ['o']),
    ('ö', ['o']), ('ú', ['u']), ('ù', ['u']), ('ü', ['u']),
    ('ß', ['s', 's']),
    ('–', ['-']), ('—', ['-', '-']), ('…', ['.', '.', '.']) ]

/-- Charwise model of `unidecode`: table lookup, identity outside the table. -/
def unidecodeChar (c : Char) : List Char :=
  match tabelaUnidecode.find? (fun e => e.1 == c) with
  | some e => e.2
  | none => [c]

/-- The `normalizar_texto` of `normalizador.py`: `unidecode(texto.lower())`.
The `lru_cache` memoization is a pure-function cache and is not modelled. -/
def normalizar_texto (texto : String) : String :=
  String.mk (((texto.data.map pyLowerChar).map unidecodeChar).flatten)

/-- Diacritic-to-base pairs of the lower-case accented Latin letters. -/
def tabelaDiacriticos : List (Char × Char) :=
  [('á', 'a'), ('à', 'a'), ('â', 'a'), ('ã', 'a'), ('ä', 'a'),
   ('ç', 'c'), ('é', 'e'), ('è', 'e'), ('ê', 'e'), ('í', 'i'),
   ('ì', 'i'), ('ó', 'o'), ('ò', 'o'), ('ô', 'o'), ('õ', 'o'),
   ('ö', 'o'), ('ú', 'u'), ('ù', 'u'), ('ü', 'u')]

/-- Spec-side definition of the normalizer contract, written from the spec
words: each character is lower-cased and its diacritic is removed, every
other character is preserved. -/
def letraBaseMinuscula (c : Char) : Char :=
  match tabelaDiacriticos.find? (fun e => e.1 == pyLowerChar c) with
  | some e => e.2
  | none => pyLowerChar c

/-- The accented Latin letters covered by the tables above. -/
def letrasAcentuadas : List Char :=
  ['á', 'à', 'â', 'ã', 'ä', 'ç', 'é', 'è', 'ê', 'í', 'ì', 'ó', 'ò', 'ô',
   'õ', 'ö', 'ú', 'ù', 'ü', 'Á', 'À', 'Â', 'Ã', 'Ä', 'Ç', 'É', 'È', 'Ê',
   'Í', 'Ì', 'Ó', 'Ò', 'Ô', 'Õ', 'Ö', 'Ú', 'Ù', 'Ü']

/-- Characters on which the `unidecode` model is exactly "strip the
diacritic": ASCII plus the accented Latin letters of the table. -/
def ehLatinoSimples (c : Char) : Bool :=
  c.toNat < 128 || letrasAcentuadas.contains c

/-! Section: Pre-compiled regular expressions (`app/utils/regex.py`)

The regexes of the classifier are word-boundary alternations
(`\b(alt1|alt2|…)\b` with `re.IGNORECASE`) and one character class.  They are
modelled by a case-insensitive word-boundary search. -/

/-- Python `\w` (word character) on the Latin alphabet of the service:
ASCII letters, digits, underscore, and (as an approximation valid on the
accented letters the service sees) every non-ASCII character. -/
def ehCharDePalavra (c : Char) : Bool :=
  c.isAlpha || c.isDigit || c == '_' || 128 ≤ c.toNat

/-- The character (if any) just before position `i` is not a word character. -/
def bordaEsquerda (cs : List Char) (i : Nat) : Bool :=
  match (cs.take i).getLast? with
  | none => true
  | some c => !(ehCharDePalavra c)

/-- The character (if any) just after the matched slice is not a word
character. -/
def bordaDireita (resto : List Char) : Bool :=
  match resto.head? with
  | none => true
  | some c => !(ehCharDePalavra c)

/-- The `re.search` of a pre-compiled `\b(alt1|…|altN)\b` pattern with
`re.IGNORECASE`: some alternative occurs in the text between word
boundaries. -/
def buscaRegex (alts : List String) (s : String) : Bool :=
  let cs := s.data.map pyLowerChar
  alts.any (fun alt =>
    (List.range (cs.length + 1)).any (fun i =>
      listaPrefixo alt.data (cs.drop i) &&
      bordaEsquerda cs i && bordaDireita ((cs.drop i).drop alt.data.length)))

/-- Alternatives of `REGEX_PERGUNTA_FACTUAL`. -/
def ALTERNATIVAS_PERGUNTA_FACTUAL : List String :=
  ["que dia e hoje", "data de hoje", "quem descobriu", "capital de",
   "definicao de", "quanto e", "resultado de"]

/-- Alternatives of `REGEX_REFERENCIAS_PESSOAIS`. -/
def ALTERNATIVAS_REFERENCIAS_PESSOAIS : List String :=
  ["meu", "minha", "minhas", "meus", "eu", "para mim", "no meu caso"]

/-- Alternatives of `REGEX_PLANO_ESTRATEGIA`. -/
def ALTERNATIVAS_PLANO_ESTRATEGIA : List String :=
  ["plano", "passo a passo", "organizar", "estratégia", "roteiro",
   "currículo", "proposta", "estudo"]

/-- The `len(REGEX_MULTIPLAS_FRASES.findall(texto))`: number of occurrences of
the character class `[.?!;]`. -/
def contaTerminadores (s : String) : Nat :=
  (s.data.filter (fun c => c == '.' || c == '?' || c == '!' || c == ';')).length


/-! Section: Lemmatizer (`app/utils/lematizador.py`)

The hybrid lemmatizer looks a word up in the static dictionary, then in the
learned dictionary, then falls back to the optional spaCy model, and finally
returns the word unchanged.  The learned dictionary contents and the spaCy
model are runtime state / an external collaborator, so they are parameters of
the embedding (bundled later in `Ambiente`). -/

/-- The `MAPEAMENTO_VERBOS`: the static conjugation-to-infinitive dictionary, as
the literal entries of `lematizador.py` (duplicate literal keys bind the same
value there, so first-match lookup agrees with the Python dict). -/
def MAPEAMENTO_VERBOS : List (String × String) :=
  [ ("enviar", "enviar"), ("envie", "enviar"), ("envia", "enviar"),
    ("enviando", "enviar"), ("enviado", "enviar"), ("enviada", "enviar"),
    ("enviei", "enviar"), ("enviou", "enviar"), ("enviaram", "enviar"),
    ("criar", "criar"), ("crie", "criar"), ("cria", "criar"),
    ("criando", "criar"), ("criado", "criar"), ("criada", "criar"),
    ("criei", "criar"), ("criou", "criar"), ("criaram", "criar"),
    ("agendar", "agendar"), ("agende", "agendar"), ("agenda", "agendar"),
    ("agendando", "agendar"), ("agendado", "agendar"), ("agendada", "agendar"),
    ("agendei", "agendar"), ("agendou", "agendar"), ("agendaram", "agendar"),
    ("marcar", "marcar"), ("marque", "marcar"), ("marca", "marcar"),
    ("marcando", "marcar"), ("marcado", "marcar"), ("marcada", "marcar"),
    ("marquei", "marcar"), ("marcou", "marcar"), ("marcaram", "marcar"),
    ("excluir", "excluir"), ("exclua", "excluir"), ("exclui", "excluir"),
    ("excluindo", "excluir"), ("excluido", "excluir"), ("excluida", "excluir"),
    ("exclui", "excluir"), ("excluiu", "excluir"), ("excluiram", "excluir"),
    ("deletar", "deletar"), ("delete", "deletar"), ("deleta", "deletar"),
    ("deletando", "deletar"), ("deletado", "deletar"), ("deletada", "deletar"),
    ("deletei", "deletar"), ("deletou", "deletar"), ("deletaram", "deletar"),
    ("remover", "remover"), ("remova", "remover"), ("remove", "remover"),
    ("removendo", "remover"), ("removido", "remover"), ("removida", "remover"),
    ("removi", "remover"), ("removeu", "remover"), ("removeram", "remover"),
    ("compartilhar", "compartilhar"), ("compartilhe", "compartilhar"), ("compartilha", "compartilhar"),
    ("compartilhando", "compartilhar"), ("compartilhado", "compartilhar"), ("compartilhada", "compartilhar"),
    ("compartilhei", "compartilhar"), ("compartilhou", "compartilhar"), ("compartilharam", "compartilhar"),
    ("editar", "editar"), ("edite", "editar"), ("edita", "editar"),
    ("editando", "editar"), ("editado", "editar"), ("editada", "editar"),
    ("editei", "editar"), ("editou", "editar"), ("editaram", "editar"),
    ("atualizar", "atualizar"), ("atualize", "atualizar"), ("atualiza", "atualizar"),
    ("atualizando", "atualizar"), ("atualizado", "atualizar"), ("atualizada", "atualizar"),
    ("atualizei", "atualizar"), ("atualizou", "atualizar"), ("atualizaram", "atualizar"),
    ("modificar", "modificar"), ("modifique", "modificar"), ("modifica", "modificar"),
    ("modificando", "modificar"), ("modificado", "modificar"), ("modificada", "modificar"),
    ("modifiquei", "modificar"), ("modificou", "modificar"), ("modificaram", "modificar"),
    ("responder", "responder"), ("responda", "responder"), ("responde", "responder"),
    ("respondendo", "responder"), ("respondido", "responder"), ("respondida", "responder"),
    ("respondi", "responder"), ("respondeu", "responder"), ("responderam", "responder"),
    ("encaminhar", "encaminhar"), ("encaminhe", "encaminhar"), ("encaminha", "encaminhar"),
    ("encaminhando", "encaminhar"), ("encaminhado", "encaminhar"), ("encaminhada", "encaminhar"),
    ("encaminhei", "encaminhar"), ("encaminhou", "encaminhar"), ("encaminharam", "encaminhar"),
    ("arquivar", "arquivar"), ("arquive", "arquivar"), ("arquiva", "arquivar"),
    ("arquivando", "arquivar"), ("arquivado", "arquivar"), ("arquivada", "arquivar"),
    ("arquivei", "arquivar"), ("arquivou", "arquivar"), ("arquivaram", "arquivar"),
    ("baixar", "baixar"), ("baixe", "baixar"), ("baixa", "baixar"),
    ("baixando", "baixar"), ("baixado", "baixar"), ("baixada", "baixar"),
    ("baixei", "baixar"), ("baixou", "baixar"), ("baixaram", "baixar"),
    ("download", "baixar"), ("fazer download", "baixar"), ("upload", "fazer upload"),
    ("fazer upload", "fazer upload"), ("subir", "fazer upload"), ("suba", "fazer upload"),
    ("sobe", "fazer upload"), ("subindo", "fazer upload"), ("subido", "fazer upload"),
    ("subida", "fazer upload"), ("subi", "fazer upload"), ("subiu", "fazer upload"),
    ("subiram", "fazer upload"), ("buscar", "buscar"), ("busque", "buscar"),
    ("busca", "buscar"), ("buscando", "buscar"), ("buscado", "buscar"),
    ("buscada", "buscar"), ("busquei", "buscar"), ("buscou", "buscar"),
    ("buscaram", "buscar"), ("procurar", "buscar"), ("procure", "buscar"),
    ("procura", "buscar"), ("procurando", "buscar"), ("pesquisar", "buscar"),
    ("pesquise", "buscar"), ("pesquisa", "buscar"), ("pesquisando", "buscar"),
    ("listar", "listar"), ("liste", "listar"), ("lista", "listar"),
    ("listando", "listar"), ("listado", "listar"), ("listada", "listar"),
    ("listei", "listar"), ("listou", "listar"), ("listaram", "listar"),
    ("consultar", "consultar"), ("consulte", "consultar"), ("consulta", "consultar"),
    ("consultando", "consultar"), ("consultado", "consultar"), ("consultada", "consultar"),
    ("consultei", "consultar"), ("consultou", "consultar"), ("consultaram", "consultar"),
    ("ver", "ver"), ("veja", "ver"), ("ve", "ver"),
    ("vendo", "ver"), ("visto", "ver"), ("vista", "ver"),
    ("vi", "ver"), ("viu", "ver"), ("viram", "ver"),
    ("visualizar", "ver"), ("visualize", "ver"), ("visualiza", "ver"),
    ("visualizando", "ver"), ("abrir", "abrir"), ("abra", "abrir"),
    ("abre", "abrir"), ("abrindo", "abrir"), ("aberto", "abrir"),
    ("aberta", "abrir"), ("abri", "abrir"), ("abriu", "abrir"),
    ("abriram", "abrir"), ("fechar", "fechar"), ("feche", "fechar"),
    ("fecha", "fechar"), ("fechando", "fechar"), ("fechado", "fechar"),
    ("fechada", "fechar"), ("fechei", "fechar"), ("fechou", "fechar"),
    ("fecharam", "fechar"), ("cancelar", "cancelar"), ("cancele", "cancelar"),
    ("cancela", "cancelar"), ("cancelando", "cancelar"), ("cancelado", "cancelar"),
    ("cancelada", "cancelar"), ("cancelei", "cancelar"), ("cancelou", "cancelar"),
    ("cancelaram", "cancelar"), ("reagendar", "reagendar"), ("reagende", "reagendar"),
    ("reagenda", "reagendar"), ("reagendando", "reagendar"), ("reagendado", "reagendar"),
    ("reagendada", "reagendar"), ("reagendei", "reagendar"), ("reagendou", "reagendar"),
    ("reagendaram", "reagendar"), ("gerar", "gerar"), ("gere", "gerar"),
    ("gera", "gerar"), ("gerando", "gerar"), ("gerado", "gerar"),
    ("gerada", "gerar"), ("gerei", "gerar"), ("gerou", "gerar"),
    ("geraram", "gerar"), ("emitir", "emitir"), ("emita", "emitir"),
    ("emite", "emitir"), ("emitindo", "emitir"), ("emitido", "emitir"),
    ("emitida", "emitir"), ("emiti", "emitir"), ("emitiu", "emitir"),
    ("emitiram", "emitir"), ("pagar", "pagar"), ("pague", "pagar"),
    ("paga", "pagar"), ("pagando", "pagar"), ("pago", "pagar"),
    ("paga", "pagar"), ("paguei", "pagar"), ("pagou", "pagar"),
    ("pagaram", "pagar"), ("transferir", "transferir"), ("transfira", "transferir"),
    ("transfere", "transferir"), ("transferindo", "transferir"), ("transferido", "transferir"),
    ("transferida", "transferir"), ("transferi", "transferir"), ("transferiu", "transferir"),
    ("transferiram", "transferir"), ("organizar", "organizar"), ("organize", "organizar"),
    ("organiza", "organizar"), ("organizando", "organizar"), ("organizado", "organizar"),
    ("organizada", "organizar"), ("organizei", "organizar"), ("organizou", "organizar"),
    ("organizaram", "organizar"), ("adicionar", "adicionar"), ("adicione", "adicionar"),
    ("adiciona", "adicionar"), ("adicionando", "adicionar"), ("adicionado", "adicionar"),
    ("adicionada", "adicionar"), ("adicionei", "adicionar"), ("adicionou", "adicionar"),
    ("adicionaram", "adicionar"), ("inserir", "inserir"), ("insira", "inserir"),
    ("insere", "inserir"), ("inserindo", "inserir"), ("inserido", "inserir"),
    ("inserida", "inserir"), ("inseri", "inserir"), ("inseriu", "inserir"),
    ("inseriram", "inserir"), ("anexar", "anexar"), ("anexe", "anexar"),
    ("anexa", "anexar"), ("anexando", "anexar"), ("anexado", "anexar"),
    ("anexada", "anexar"), ("anexei", "anexar"), ("anexou", "anexar"),
    ("anexaram", "anexar"), ("copiar", "copiar"), ("copie", "copiar"),
    ("copia", "copiar"), ("copiando", "copiar"), ("copiado", "copiar"),
    ("copiada", "copiar"), ("copiei", "copiar"), ("copiou", "copiar"),
    ("copiaram", "copiar"), ("mover", "mover"), ("mova", "mover"),
    ("move", "mover"), ("movendo", "mover"), ("movido", "mover"),
    ("movida", "mover"), ("movi", "mover"), ("moveu", "mover"),
    ("moveram", "mover"), ("salvar", "salvar"), ("salve", "salvar"),
    ("salva", "salvar"), ("salvando", "salvar"), ("salvo", "salvar"),
    ("salva", "salvar"), ("salvei", "salvar"), ("salvou", "salvar"),
    ("salvaram", "salvar"), ("imprimir", "imprimir"), ("imprima", "imprimir"),
    ("imprime", "imprimir"), ("imprimindo", "imprimir"), ("impresso", "imprimir"),
    ("impressa", "imprimir"), ("imprimi", "imprimir"), ("imprimiu", "imprimir"),
    ("imprimiram", "imprimir"), ("exportar", "exportar"), ("exporte", "exportar"),
    ("exporta", "exportar"), ("exportando", "exportar"), ("exportado", "exportar"),
    ("exportada", "exportar"), ("exportei", "exportar"), ("exportou", "exportar"),
    ("exportaram", "exportar"), ("importar", "importar"), ("importe", "importar"),
    ("importa", "importar"), ("importando", "importar"), ("importado", "importar"),
    ("importada", "importar"), ("importei", "importar"), ("importou", "importar"),
    ("importaram", "importar") ]

/-- First-match lookup in an association list (Python `dict` access for the
dictionaries of this service, whose duplicate keys all carry equal values). -/
def dictLookup (d : List (String × String)) (k : String) : Option String :=
  (d.find? (fun kv => kv.1 == k)).map (fun kv => kv.2)

/-- The `VERBOS_INFINITIVOS = set(MAPEAMENTO_VERBOS.values())`. -/
def VERBOS_INFINITIVOS : List String :=
  (MAPEAMENTO_VERBOS.map (fun kv => kv.2)).dedup

/-! Section: External collaborators and repository constants missing from the tree

`classificador.py` imports `eh_pergunta_interrogativa`, `OBJETOS_INTEGRACAO`,
`CONTEXTOS_EMAIL`, `CONTEXTOS_COMPARTILHAR`, `CONTEXTOS_AGENDAMENTO`,
`CONTEXTOS_CANCELAMENTO` and `EXCLUSOES_INTEGRACAO` from
`app/utils/lematizador.py`, which does not define them in the tree; they are
modelled from the specification and kept as parameters of the classifier so
that every theorem quantified over the environment is independent of the
modelled contents. -/

/-- Environment of the classifier and lemmatizer: runtime state (the learned
dictionary), the optional spaCy collaborator, and the constants imported from
the part of `lematizador.py` that is missing from the tree. -/
structure Ambiente where
  aprendido : List (String × String)
  spacy : Option (String → String)
  ehPerguntaInterrogativa : String → Bool
  objetosIntegracao : List String
  contextosEmail : List String
  contextosCompartilhar : List String
  contextosAgendamento : List String
  contextosCancelamento : List String
  exclusoesIntegracao : List String

/-- The `lematizar_palavra`: static dictionary, then learned dictionary, then the
spaCy fallback, then identity.  `env.spacy = none` is the
spaCy-unavailable (or erroring) configuration; learning as a side effect does
not change the value returned for the looked-up word. -/
def lematizar_palavra (env : Ambiente) (palavra : String) : String :=
  match dictLookup MAPEAMENTO_VERBOS palavra with
  | some v => v
  | none =>
    match dictLookup env.aprendido palavra with
    | some v => v
    | none =>
      match env.spacy with
      | some nlp => nlp palavra
      | none => palavra

/-- The `lematizar_texto`: lemmatize word by word and rejoin with single
spaces. -/
def lematizar_texto (env : Ambiente) (texto : String) : String :=
  String.intercalate " " ((pySplit texto).map (lematizar_palavra env))

/-- The `extrair_verbos_de_acao`: the set of action infinitives whose conjugation
occurs as a word of the text (modelled as a deduplicated list). -/
def extrair_verbos_de_acao (env : Ambiente) (texto : String) : List String :=
  (((pySplit texto).map (lematizar_palavra env)).filter
    (fun v => VERBOS_INFINITIVOS.contains v)).dedup

/-- The `tem_verbo_de_acao`. -/
def tem_verbo_de_acao (env : Ambiente) (texto : String) : Bool :=
  !(extrair_verbos_de_acao env texto).isEmpty

/-- Modelled from the spec: `OBJETOS_INTEGRACAO`, the specific integration
objects of rule 5 ("a specific integration object"); missing from
`lematizador.py` in the tree. -/
def OBJETOS_INTEGRACAO : List String :=
  ["planilha", "documento", "reuniao", "evento", "boleto"]

/-- Modelled from the spec: `CONTEXTOS_EMAIL`, the recipient markers of the
email rule ("an email with a recipient marker"); missing from
`lematizador.py` in the tree. -/
def CONTEXTOS_EMAIL : List String := ["para", "pro ", "pra ", "@"]

/-- Modelled from the spec: `CONTEXTOS_COMPARTILHAR`, the share
context-qualifiers of rule 5; missing from `lematizador.py` in the tree. -/
def CONTEXTOS_COMPARTILHAR : List String :=
  ["arquivo", "documento", "planilha", "pasta", "link"]

/-- Modelled from the spec: `CONTEXTOS_AGENDAMENTO`, the schedule
context-qualifiers of rule 5; missing from `lematizador.py` in the tree. -/
def CONTEXTOS_AGENDAMENTO : List String :=
  ["reuniao", "horario", "amanha", "hoje", "agenda", "evento"]

/-- Modelled from the spec: `CONTEXTOS_CANCELAMENTO`, the cancel
context-qualifiers of rule 5; missing from `lematizador.py` in the tree. -/
def CONTEXTOS_CANCELAMENTO : List String :=
  ["reuniao", "evento", "compromisso", "agendamento"]

/-- Modelled from the spec: `EXCLUSOES_INTEGRACAO`, the exclusion phrases of
rule 5 ("capability questions, greetings, third-person narrative,
meta-questions about the abilities of the assistant"); missing from
`lematizador.py` in the tree. -/
def EXCLUSOES_INTEGRACAO : List String :=
  ["voce pode", "voce consegue", "e possivel", "bom dia", "boa tarde",
   "o que voce faz", "quais suas funcoes"]

/-- The default environment: empty learned dictionary, spaCy unavailable,
and the modelled constants above. -/
def envPadrao : Ambiente :=
  { aprendido := []
    spacy := none
    ehPerguntaInterrogativa := fun _ => false
    objetosIntegracao := OBJETOS_INTEGRACAO
    contextosEmail := CONTEXTOS_EMAIL
    contextosCompartilhar := CONTEXTOS_COMPARTILHAR
    contextosAgendamento := CONTEXTOS_AGENDAMENTO
    contextosCancelamento := CONTEXTOS_CANCELAMENTO
    exclusoesIntegracao := EXCLUSOES_INTEGRACAO }

/-! Section: Classifier constants (`app/services/analisador/classificador.py`)

The literal keyword lists of `Classificador.determinar_categoria`, in source
order.  `PALAVRAS_CHAVE_DE_SISTEMA` is imported there from the module
`app/services/analisador/constantes.py`, which is not in the tree; `main.py`
declares the same constant, whose literal is used here. -/

def saudacoes_comuns : List String :=
  ["oi", "ola", "oie", "opa", "e ai", "eai",
   "bom dia", "boa tarde", "boa noite",
   "como vai", "tudo bem", "blz", "beleza"]

def confirmacoes : List String :=
  ["ok", "sim", "nao", "entendi", "certo", "beleza", "hmm", "talvez"]

def incertezas : List String := ["nao sei", "sei la", "talvez", "acho que"]

def palavras_genericas_curta : List String :=
  ["documento", "email", "arquivo", "planilha", "fazer", "criar", "enviar"]

def pronomes_demonstrativos : List String :=
  ["isso", "aquilo", "este", "esse", "aquele", "la", "ca"]

def interrogativas_sozinhas : List String :=
  ["como", "quando", "onde", "que", "qual", "quem", "quanto"]

def palavras_teste : List String := ["teste", "abc", "xyz", "123", "aaa", "bbb"]

def mensagens_conversacionais_claras : List String :=
  ["beleza", "ok", "certo", "entendi", "obrigado", "obrigada",
   "valeu", "legal", "otimo", "perfeito", "maravilha",
   "pode continuar", "pode seguir", "tudo certo", "esta certo",
   "deu certo", "ficou otimo", "ficou bom", "ta bom",
   "entao ta", "deixa como esta", "nao precisa",
   "me lembra", "era isso", "e isso mesmo", "me atualiza"]

def frases_resto_ambiguas : List String :=
  ["faz o resto", "faz o restante", "depois que terminar",
   "quando acabar", "quando finalizar"]

def pronomes_sem_contexto : List (String × String) :=
  [(" ela ", "ela"), (" ele ", "ele"), (" eles ", "eles"), (" elas ", "elas"),
   (" isso ", "isso"), (" aquilo ", "aquilo"), (" disso ", "disso"),
   (" daquilo ", "daquilo"), (" esse ", "esse"), (" esta ", "esta")]

def termos_longa_conversacional : List String :=
  ["gostaria", "poderia", "agradecer", "obrigado", "poderia me ajudar",
   "me ajudar"]

def substantivos_claros : List String :=
  ["maria", "joao", "pedro", "ana", "carlos", "jose",
   "arquivo", "documento", "planilha", "email", "relatorio"]

def nomes_proprios_pra : List String :=
  ["maria", "joao", "ana", "pedro", "carlos", "jose", "paulo"]

def referencias_temporais_ambiguas : List String :=
  ["de antes", "da outra vez", "do outro dia", "de ontem",
   "mesmo lugar", "mesmo jeito", "o mesmo que", "igual ao",
   "o que a gente", "o que voce", "o que eu",
   "aquele problema", "aquele erro", "aquele arquivo", "aquele documento"]

def termos_vagos : List String :=
  ["o necessario", "o que precisar", "o que for melhor",
   "tudo certo", "deixa certo", "ajeita", "resolve",
   "cuida disso", "da um jeito", "faz funcionar"]

def condicoes_indefinidas : List String :=
  ["se for o caso", "se precisar", "se der",
   "quando der", "quando puder", "quando for possivel",
   "talvez precise", "pode ser que", "acho que talvez"]

def acoes_com_objeto_generico : List (String × String) :=
  [("gera o", "objeto a gerar não especificado"),
   ("cria o", "objeto a criar não especificado"),
   ("envia o", "objeto a enviar não especificado"),
   ("manda o", "objeto a enviar não especificado"),
   ("salva o", "objeto a salvar não especificado"),
   ("abre o", "objeto a abrir não especificado"),
   ("deleta o", "objeto a deletar não especificado"),
   ("exclui o", "objeto a excluir não especificado"),
   ("edita o", "objeto a editar não especificado"),
   ("verifica o", "objeto a verificar não especificado"),
   ("revisa o", "objeto a revisar não especificado")]

def palavras_genericas_objeto : List String :=
  ["documento", "arquivo", "email", "planilha", "relatorio", "cadastro"]

def especificacoes_objeto : List String :=
  ["chamado", "chamada", " reuniao ", " da reuniao ",
   "@", ".com", ".pdf", ".docx", ".xlsx"]

def verbos_de_novo : List String := ["cria", "gera", "faz", "envia"]

def especificacoes_de_novo : List String :=
  [" cliente ", " projeto ", " reuniao ", "chamado"]

def destinos_genericos_ambiguos : List (String × String) :=
  [("envia o documento", "documento genérico sem especificação"),
   ("envia o arquivo", "arquivo genérico sem especificação"),
   ("envia a planilha", "planilha genérica sem especificação"),
   ("manda o documento", "documento genérico sem especificação"),
   ("manda o arquivo", "arquivo genérico sem especificação")]

def destinos_especificos : List String :=
  ["drive", "gmail", "sheets", "docs", "calendar", "email", "slack"]

def especificacoes_arquivo : List String :=
  [".pdf", ".docx", ".xlsx", "chamado", "contrato", "relatorio de"]

def outros_destinos_genericos : List (String × String) :=
  [("salva na planilha", "planilha não especificada"),
   ("salva na pasta", "pasta não especificada"),
   ("coloca na pasta", "pasta não especificada"),
   ("coloca no calendario", "evento não especificado"),
   ("envia pro email", "destinatário não especificado")]

def especificacoes_outros_destinos : List String :=
  [" cliente ", " projeto ", " chamado", " reuniao "]

def conectores_dupla_intencao : List String := [" ou ", " e ", " / ", " e/ou "]

def verbos_acao_sistema : List String :=
  ["criar", "gerar", "enviar", "mandar", "deletar", "excluir",
   "editar", "modificar", "salvar", "abrir", "fechar", "arquivar",
   "fazer", "produzir", "compartilhar", "baixar", "fazer upload",
   "cria", "gera", "envia", "manda", "deleta", "exclui",
   "edita", "modifica", "salva", "abre", "fecha", "arquiva",
   "faz", "produz", "compartilha", "baixa",
   "crie", "gere", "envie", "mande", "delete", "exclua",
   "edite", "modifique", "salve", "abra", "feche", "archive"]

def excecoes_capacidade_dupla : List String :=
  ["voce pode", "voce consegue", "e possivel"]

def termos_polissemicos : List (String × String) :=
  [("sobe o", "termo \x27sobe\x27 ambíguo - upload, move para pasta superior?"),
   ("sobe ", "termo \x27sobe\x27 ambíguo - upload, move para pasta superior?"),
   ("corrige a conta",
    "termo \x27conta\x27 ambíguo - valor financeiro ou perfil de usuário?"),
   ("corrige o", "termo \x27corrige\x27 ambíguo - qual tipo de correção?"),
   ("cria um registro",
    "termo \x27registro\x27 ambíguo - onde? em qual sistema/planilha?")]

def expressoes_incerteza : List String :=
  ["nao tenho certeza", "nao sei se", "nao tenho", "nao sei",
   "acho que talvez", "talvez precise", "pode ser que",
   "nao estou certo", "nao estou seguro"]

def verbos_incerteza : List String :=
  ["criar", "gerar", "enviar", "deletar", "fazer", "cria", "gera", "faz"]

def opcoes_ambiguas_ou : List String :=
  ["antes", "depois", "manda", "envia", "deleta", "mantem", "cria", "edita"]

def perguntas_capacidade : List String :=
  ["voce pode", "voce consegue", "voce tem",
   "e possivel", "da pra", "tem como", "existe alguma forma",
   "como faco", "como fazer", "como funciona",
   "onde esta", "onde fica", "o que e", "qual e"]

def palavras_system_interno : List String :=
  ["sessao", "cache", "log", "logs", "webhook", "webhooks",
   "variaveis de ambiente", "variavel de ambiente", "depuracao", "debug",
   "modo teste", "modo de teste", "agente", "banco", "database",
   "microservico", "api interna", "infraestrutura", "backend",
   "monique", "historico de conversa", "historico"]

def verbos_system : List String :=
  ["reinicia", "reiniciar", "limpa", "limpar", "atualiza",
   "verifica", "habilita", "habilitar", "ativa", "ativar",
   "desativa", "desativar", "desconecta", "desconectar", "refresh",
   "forca", "forcar", "mostra", "me mostra"]

def palavras_apis_externas : List String :=
  ["google calendar", "calendar", "gmail", "google drive", "drive",
   "google sheets", "sheets", "google docs", "google meet", "meet",
   "google tasks", "tasks", "google photos", "photos",
   "oauth", "autenticacao google", "conta google", "api google"]

def PALAVRAS_CHAVE_DE_SISTEMA : List String :=
  ["documento", "document", "doc", "planilha", "spreadsheet", "sheet",
   "tabela", "arquivo", "file", "pdf", "drive", "armazenamento", "storage",
   "calendario", "agenda", "evento", "compromisso", "contatos", "contacts",
   "nota", "notes", "reuniao", "meeting", "encontro", "compartilhar",
   "share", "sincronizar", "sync", "integracao", "api", "oauth", "google",
   "gmail", "email", "e-mail", "boleto", "fatura", "cobranca", "pagamento"]

def pronomes_terceira_pessoa : List String :=
  ["ele ", "ela ", "eles ", "elas ", "alguem ", "voce viu que "]

def nomes_proprios_comuns : List String :=
  ["maria ", "joao ", "jose ", "ana ", "pedro ", "paulo ", "lucas ",
   "carlos "]

def grupos_terceira_pessoa : List String :=
  ["a equipe ", "o time ", "os hackers ", "a empresa ", "o grupo "]

def verbos_passado : List String :=
  [" deletou ", " enviou ", " criou ", " compartilhou ",
   " agendou ", " cancelou ", " removeu ", " excluiu ",
   " baixou ", " baixaram ", " enviaram ", " criaram ",
   " compartilharam ", " agendaram "]

def palavras_tarefas_pessoais : List String :=
  ["melhorar meu", "melhorar minha", "organizar meu", "organizar minha",
   "mentalmente", "estrategia", "plano de", "praticas para",
   "melhores praticas"]

def pedidos_ajuda_genericos : List String :=
  ["me ajude", "me ajuda", "preciso de ajuda",
   "tutorial de", "tutorial sobre", "como usar",
   "dicas de", "dicas sobre", "dica de"]

def saudacoes_interrogativas : List String :=
  ["tudo bem", "como vai", "como voce esta", "e ai", "beleza"]

def marcadores_condicionais : List String :=
  ["se pudesse", "se tivesse", "se fosse", "se conseguisse",
   "mas nao posso", "porem nao", "todavia nao"]

def objetos_genericos_comandos : List String :=
  ["relatorio", "arquivo", "documento", "dados", "backup",
   "nota", "texto", "mensagem", "foto", "imagem", "video", "email",
   "valor", "dinheiro", "pagamento", "boleto"]

def palavras_abstratas : List String :=
  ["mentalmente", "estrategia", "plano de", "melhorar meu", "organizar meu"]

def palavras_tecnicas_pergunta : List String :=
  ["como funciona", "o que e", "como usar", "quero entender",
   "quero aprender", "como fazer", "qual a diferenca", "me explique",
   "entender conceito", "entender os conceito",
   "git", "python", "javascript", "api", "sistema", "versionamento",
   "programacao", "codigo", "algoritmo", "tecnologia", "framework",
   "branch", "merge", "pull request", "commit", "database"]

def pronomes_pessoais : List String :=
  [" meu ", " minha ", " meus ", " minhas ", " eu ", " me ", " comigo "]

def palavras_interrogativas : List String :=
  ["como", "quando", "onde", "por que", "porque", "qual", "que", "quem"]

def saudacoes_fallback : List String :=
  ["oi", "ola", "oie", "opa", "e ai", "bom dia", "boa tarde", "boa noite"]

def palavras_tecnicas_fallback : List String :=
  ["git", "python", "api", "codigo", "sistema", "funciona"]

def perguntas_capacidade_intencao : List String :=
  ["voce pode", "voce consegue", "e possivel", "da pra", "tem como",
   "existe alguma forma", "como faco", "como fazer", "onde esta",
   "onde fica"]

def nomes_proprios_intencao : List String :=
  ["maria ", "joao ", "jose ", "ana ", "pedro ", "paulo ", "lucas ",
   "carlos ", "fernando "]

def grupos_terceira_pessoa_intencao : List String :=
  ["a equipe ", "o time ", "os hackers ", "a empresa ", "o grupo ",
   "eles ", "alguem "]

def verbos_passado_narrativa : List String :=
  [" deletou ", " enviou ", " criou ", " compartilhou ",
   " agendou ", " cancelou ", " removeu ", " excluiu ",
   " baixou ", " baixaram ", " enviaram ", " criaram ",
   " compartilharam ", " agendaram ", " cancelaram "]

def objetos_genericos_com_verbo : List String :=
  ["relatorio", "arquivo", "documento", "dados", "backup",
   "nota", "texto", "mensagem", "foto", "imagem", "video"]

def palavras_tarefas_simples : List String :=
  ["plano de", "minhas ideias", "uma estrategia", "meus documentos",
   "preparar uma", "melhorar meu email", "criar um roteiro",
   "organizar pensamentos", "organizar prioridades", "criar um metodo",
   "otimizar meu"]

def palavras_personalizacao : List String :=
  ["estou me sentindo", "queria entender melhor", "preciso de conselhos",
   "preciso de ajuda para", "gostaria de aprender", "com dificuldade",
   "sobrecarregado", "crescer profissionalmente", "estou buscando maneiras",
   "quero desenvolver", "procuro formas", "preciso repensar",
   "gostaria de feedback", "gostaria de melhorar"]

def contextos_melhoria_pessoal : List String :=
  ["relacionamento", "desempenho", "no trabalho"]

/-! Section: Classifier rules (`Classificador.determinar_categoria`)

Each early-`return` site of the Python function becomes a rule of type
`Option (String × List String)`; `determinar_categoria` tries them in the
source order and falls back to the final block. -/

/-- The `any(p in texto for p in padroes)`. -/
def algumEm (padroes : List String) (texto : String) : Bool :=
  padroes.any (fun p => py_in p texto)

/-- Python `s.startswith(t)`. -/
def pyStartsWith (t s : String) : Bool := listaPrefixo t.data s.data

/-- Priority 0: very short messages (≤ 15 characters, ≤ 2 words). -/
def prioridadeZero (orig norm : String) : Option (String × List String) :=
  if decide ((pyStrip orig).length ≤ 15) && decide (numPalavras norm ≤ 2) then
    if algumEm saudacoes_comuns norm then
      some ("user", ["Saudação conversacional"])
    else if confirmacoes.contains (pyStrip norm) then
      some ("user", ["Resposta/feedback conversacional"])
    else if algumEm incertezas norm then
      some ("unclear", ["Expressão de incerteza - precisa de esclarecimento"])
    else if palavras_genericas_curta.any (fun p => p == pyStrip norm) then
      some ("unclear", ["Palavra solta sem contexto - precisa de esclarecimento"])
    else if pronomes_demonstrativos.contains (pyStrip norm) then
      some ("unclear", ["Referência ambígua - precisa de contexto"])
    else if interrogativas_sozinhas.contains (pyStrip norm) then
      some ("unclear", ["Pergunta incompleta - precisa de mais informação"])
    else if decide (numPalavras norm = 1) && decide ((pyStrip norm).length < 6) then
      some ("unclear", ["Mensagem muito curta sem contexto claro"])
    else none
  else none

/-- Priority 0 tail: 2-3 word test-looking phrases. -/
def fraseDeTeste (orig norm : String) : Option (String × List String) :=
  if decide (numPalavras norm ≤ 3) && decide ((pyStrip orig).length < 20) then
    if algumEm palavras_teste norm then
      some ("unclear", ["Parece mensagem de teste - sem intenção clara"])
    else none
  else none

/-- Priority 0.2 head: the fixed lexicon of unambiguous conversational
acknowledgements. -/
def conversacionalClara (norm : String) : Option (String × List String) :=
  if algumEm mensagens_conversacionais_claras norm then
    some ("message", ["Mensagem conversacional (confirmação/feedback)"])
  else none

/-- The `eh_mensagem_longa_conversacional`. -/
def ehMensagemLongaConversacional (orig norm : String) : Bool :=
  decide (100 < orig.length) && decide (15 < numPalavras norm) &&
    algumEm termos_longa_conversacional norm

/-- The dangling-pronoun detector: the pronoun name reported by the flag
`tem_pronome_ambiguo` / `pronome_encontrado` logic, if any. -/
def pronomeAmbiguoEncontrado (norm : String) : Option String :=
  let base :=
    if algumEm substantivos_claros norm then none
    else (pronomes_sem_contexto.find? (fun bn => py_in bn.1 norm)).map
      (fun bn => bn.2)
  let comMultiplos :=
    if py_in " e pra ela" norm || py_in " e pra ele" norm then
      some (if py_in " e pra ela" norm then "ela/ele" else "ele")
    else base
  if (py_in " pra ela" norm || py_in " pra ele" norm) &&
      !(algumEm nomes_proprios_pra norm) then
    some (if py_in " pra ela" norm then "ela" else "ele")
  else comMultiplos

def regraFrasesResto (norm : String) : Option (String × List String) :=
  if algumEm frases_resto_ambiguas norm then
    some ("unclear",
      ["Referência vaga - \x27o resto\x27 ou condição temporal indefinida"])
  else none

def regraPronomeAmbiguo (orig norm : String) : Option (String × List String) :=
  match (if ehMensagemLongaConversacional orig norm then none
         else pronomeAmbiguoEncontrado norm) with
  | some nome =>
    some ("unclear",
      ["Referência ambígua (\x27" ++ nome ++ "\x27) sem antecedente claro"])
  | none => none

def regraReferenciaTemporal (norm : String) : Option (String × List String) :=
  if algumEm referencias_temporais_ambiguas norm then
    some ("unclear",
      ["Referência temporal/comparativa ambígua - depende de contexto anterior"])
  else none

def regraTermosVagos (norm : String) : Option (String × List String) :=
  if algumEm termos_vagos norm then
    some ("unclear", ["Termo vago/subjetivo sem definição clara da ação"])
  else none

def regraCondicoesIndefinidas (norm : String) : Option (String × List String) :=
  if algumEm condicoes_indefinidas norm then
    some ("unclear",
      ["Condição temporal/condicional indefinida - falta clareza sobre quando/se executar"])
  else none

def regraAcaoObjetoGenerico (norm : String) : Option (String × List String) :=
  match acoes_com_objeto_generico.find? (fun pm => py_in pm.1 norm) with
  | some pm =>
    if algumEm palavras_genericas_objeto norm &&
        !(algumEm especificacoes_objeto norm) then
      some ("unclear", ["Ação incompleta: " ++ pm.2])
    else none
  | none => none

def regraDeNovo (norm : String) : Option (String × List String) :=
  if py_in "de novo" norm && algumEm verbos_de_novo norm then
    if !(algumEm especificacoes_de_novo norm) then
      some ("unclear",
        ["Modificador \x27de novo\x27 sem especificação - refazer qual ação/objeto?"])
    else none
  else none

def regraDestinosGenericos (norm : String) : Option (String × List String) :=
  match destinos_genericos_ambiguos.find? (fun pm => py_in pm.1 norm) with
  | some pm =>
    if !(algumEm destinos_especificos norm) &&
        !(algumEm especificacoes_arquivo norm) then
      some ("unclear", ["Ação incompleta: " ++ pm.2])
    else none
  | none => none

def regraOutrosDestinos (norm : String) : Option (String × List String) :=
  match outros_destinos_genericos.find? (fun pm => py_in pm.1 norm) with
  | some pm =>
    if !(algumEm especificacoes_outros_destinos norm) then
      some ("unclear", ["Destino incompleto: " ++ pm.2])
    else none
  | none => none

/-- The `verbos_encontrados_lista` of the double-intent rule. -/
def verbosEncontradosLista (norm : String) : List String :=
  verbos_acao_sistema.filter (fun v => py_in v norm)

def regraDuplaIntencao (norm : String) : Option (String × List String) :=
  if algumEm conectores_dupla_intencao norm then
    if decide (2 ≤ (verbosEncontradosLista norm).length) then
      if !(algumEm excecoes_capacidade_dupla norm) then
        some ("unclear",
          ["Múltiplas ações (" ++
            String.intercalate ", " ((verbosEncontradosLista norm).take 2) ++
            ") - qual executar?"])
      else none
    else none
  else none

def regraPolissemicos (norm : String) : Option (String × List String) :=
  match termos_polissemicos.find? (fun pm => py_in pm.1 norm) with
  | some pm => some ("unclear", ["Ambiguidade de domínio: " ++ pm.2])
  | none => none

/-- Priority 0.2: every contextual/semantic ambiguity detector, in source
order; each match routes to `unclear`. -/
def ambiguidadeContextual (orig norm : String) : Option (String × List String) :=
  regraFrasesResto norm <|> regraPronomeAmbiguo orig norm <|>
  regraReferenciaTemporal norm <|> regraTermosVagos norm <|>
  regraCondicoesIndefinidas norm <|> regraAcaoObjetoGenerico norm <|>
  regraDeNovo norm <|> regraDestinosGenericos norm <|>
  regraOutrosDestinos norm <|> regraDuplaIntencao norm <|>
  regraPolissemicos norm

/-- Priority 0.5 exception 0: long conversational messages. -/
def regraLongaConversacional (orig norm : String) :
    Option (String × List String) :=
  if ehMensagemLongaConversacional orig norm then
    some ("user", ["Mensagem conversacional longa - sem comando de integração"])
  else none

/-- Priority 0.5 exception 1: uncertainty about an action. -/
def regraIncertezaAcao (norm : String) : Option (String × List String) :=
  if algumEm expressoes_incerteza norm then
    if algumEm verbos_incerteza norm then
      some ("unclear",
        ["Expressão de incerteza sobre ação - falta confirmação"])
    else none
  else none

/-- Priority 0.5 exception 2: multiple-option questions. -/
def regraPerguntaComOpcoes (orig norm : String) :
    Option (String × List String) :=
  if py_in " ou " norm then
    if pyEndsWith "?" orig then
      if algumEm opcoes_ambiguas_ou norm then
        some ("unclear",
          ["Pergunta com múltiplas opções sem contexto - não há resposta clara"])
      else none
    else none
  else none

/-- Priority 0.5: capability questions. -/
def regraPerguntaCapacidade (norm : String) : Option (String × List String) :=
  if algumEm perguntas_capacidade norm then
    some ("messages", ["Pergunta sobre capacidade (não é comando)"])
  else none

/-- The `eh_comando_system` of priority 1. -/
def eh_comando_system (norm : String) : Bool :=
  algumEm palavras_system_interno norm &&
    (algumEm verbos_system norm || py_in "verifica se" norm)

def regraComandoInterno (norm : String) : Option (String × List String) :=
  if eh_comando_system norm then
    some ("system", ["Comando de controle interno do sistema"])
  else none

def regraApiExterna (norm : String) : Option (String × List String) :=
  if algumEm palavras_apis_externas norm then
    some ("user", ["Comando que requer API externa (Google, OAuth)"])
  else none

/-- The `palavras_encontradas` of rule group 5 (the Python source iterates a
`set`, whose order is unspecified; the literal order of the declaration is
used here). -/
def palavrasChaveEncontradas (norm : String) : List String :=
  PALAVRAS_CHAVE_DE_SISTEMA.filter (fun p => py_in p norm)

/-- The third-person-narrative exclusion inside
`_tem_intencao_clara_de_integracao`. -/
def eh_narrativa_terceira_pessoa (norm : String) : Bool :=
  algumEm (pronomes_terceira_pessoa ++ nomes_proprios_intencao ++
    grupos_terceira_pessoa_intencao) norm &&
  algumEm verbos_passado_narrativa norm

/-- The `Classificador._tem_intencao_clara_de_integracao`. -/
def tem_intencao_clara_de_integracao (env : Ambiente) (norm : String) : Bool :=
  if algumEm perguntas_capacidade_intencao norm then false
  else if eh_narrativa_terceira_pessoa norm then false
  else if env.exclusoesIntegracao.any (fun e => py_in e norm) then false
  else
    let texto_lematizado := lematizar_texto env norm
    let tem_verbo :=
      !(((extrair_verbos_de_acao env norm).filter
          (fun v => VERBOS_INFINITIVOS.contains v)).isEmpty)
    let tem_objeto_especifico := env.objetosIntegracao.any (fun o => py_in o norm)
    let tem_objeto_generico := algumEm objetos_genericos_com_verbo norm
    let tem_email_com_destinatario := py_in "@" norm || py_in ".com" norm
    let tem_email_com_contexto :=
      (py_in "email" norm || py_in "e-mail" norm) &&
      (tem_verbo || py_in "para" norm || py_in "@" norm) &&
      env.contextosEmail.any (fun p => py_in p norm)
    let tem_documento_com_acao :=
      (py_in "documento" norm || py_in "doc " norm || py_in " doc " norm ||
        pyEndsWith "doc" norm || pyStartsWith "doc " norm) && tem_verbo
    let tem_arquivo_com_acao := py_in "arquivo" norm &&
      (tem_verbo || py_in "baixar" texto_lematizado ||
        py_in "compartilhado" norm)
    let tem_calendario_com_contexto :=
      (py_in "agenda" norm || py_in "calendar" norm) && tem_verbo &&
        !(py_in "tempo" norm)
    let tem_compartilhamento := py_in "compartilhar" texto_lematizado &&
      env.contextosCompartilhar.any (fun c => py_in c norm)
    let tem_agendamento_horario :=
      (py_in "marcar" texto_lematizado || py_in "agendar" texto_lematizado ||
        py_in "reservar" texto_lematizado) &&
      env.contextosAgendamento.any (fun c => py_in c norm)
    let tem_cancelamento_ou_reagendamento :=
      (py_in "cancelar" texto_lematizado || py_in "reagendar" texto_lematizado) &&
      env.contextosCancelamento.any (fun c => py_in c norm)
    let tem_verbo_com_objeto_generico := tem_verbo && tem_objeto_generico
    tem_objeto_especifico || tem_email_com_contexto ||
      tem_email_com_destinatario || tem_documento_com_acao ||
      tem_arquivo_com_acao || tem_calendario_com_contexto ||
      tem_compartilhamento || tem_agendamento_horario ||
      tem_cancelamento_ou_reagendamento || tem_verbo_com_objeto_generico

/-- Rule group 5 condition: a system keyword occurs and the clear-integration
predicate holds. -/
def grupo5_integracao (env : Ambiente) (norm : String) : Bool :=
  !(palavrasChaveEncontradas norm).isEmpty &&
    tem_intencao_clara_de_integracao env norm

def regraIntegracaoGenerica (env : Ambiente) (norm : String) :
    Option (String × List String) :=
  if grupo5_integracao env norm then
    some ("system",
      ["Palavras-chave de sistemas/APIs: " ++
        String.intercalate ", " ((palavrasChaveEncontradas norm).take 6)])
  else none

/-- Priority 1.5A: third-person narratives. -/
def regraNarrativaTerceira (norm : String) : Option (String × List String) :=
  if algumEm (pronomes_terceira_pessoa ++ nomes_proprios_comuns ++
       grupos_terceira_pessoa) norm && algumEm verbos_passado norm then
    some ("user", ["Narrativa sobre terceira pessoa (não é comando)"])
  else none

/-- Priority 1.5C: abstract/personal tasks. -/
def regraTarefaPessoal (norm : String) : Option (String × List String) :=
  if algumEm palavras_tarefas_pessoais norm then
    some ("user", ["Tarefa pessoal/abstrata (não comando de API)"])
  else none

/-- Priority 1.5D: generic help requests. -/
def regraAjudaGenerica (norm : String) : Option (String × List String) :=
  if algumEm pedidos_ajuda_genericos norm then
    some ("messages", ["Pedido de ajuda genérico (não comando específico)"])
  else none

/-- Priority 1.5E: interrogative greetings. -/
def regraSaudacaoInterrogativa (orig norm : String) :
    Option (String × List String) :=
  if algumEm saudacoes_interrogativas norm && py_in "?" orig then
    some ("user", ["Saudação conversacional"])
  else none

/-- Priority 1.5F: vague conditional phrases. -/
def regraCondicionalVaga (norm : String) : Option (String × List String) :=
  if algumEm marcadores_condicionais norm then
    some ("messages", ["Frase condicional/hipotética (não comando direto)"])
  else none

/-- Priority 1.5G: commands over generic objects. -/
def regraComandoObjetoGenerico (env : Ambiente) (orig norm : String) :
    Option (String × List String) :=
  if algumEm objetos_genericos_comandos norm &&
      VERBOS_INFINITIVOS.any (fun v => py_in v (lematizar_texto env norm)) &&
      !(py_in "?" orig) && !(algumEm palavras_abstratas norm) then
    some ("system", ["Comando com verbo de integração e objeto genérico"])
  else none

/-- The `Classificador._e_pergunta_direta_e_objetiva`. -/
def e_pergunta_direta_e_objetiva (texto norm : String) : Bool :=
  (decide (texto.length ≤ 80) && pyEndsWith "?" texto) ||
    buscaRegex ALTERNATIVAS_PERGUNTA_FACTUAL norm

def regraPerguntaDireta (orig norm : String) : Option (String × List String) :=
  if e_pergunta_direta_e_objetiva orig norm then
    some ("messages", ["Pergunta direta/fechada detectada."])
  else none

/-- Priority 2A: questions detected by the optional spaCy collaborator. -/
def regraPerguntaSpacy (env : Ambiente) (orig norm : String) :
    Option (String × List String) :=
  if env.ehPerguntaInterrogativa orig then
    if algumEm palavras_tecnicas_pergunta norm then
      some ("messages", ["Pergunta técnica/conceitual (spaCy)"])
    else
      some ("messages", ["Pergunta detectada por análise linguística"])
  else none

/-- The `Classificador._e_mensagem_complexa_ou_pessoal`. -/
def e_mensagem_complexa_ou_pessoal (texto norm : String) : Bool :=
  if algumEm palavras_tarefas_simples norm && decide (texto.length < 80) then
    false
  else
    buscaRegex ALTERNATIVAS_REFERENCIAS_PESSOAIS texto ||
    buscaRegex ALTERNATIVAS_PLANO_ESTRATEGIA texto ||
    decide (1 < contaTerminadores texto) ||
    algumEm palavras_personalizacao norm ||
    (py_in "melhorar minha comunicacao" norm ||
      (py_in "melhorar" norm && algumEm contextos_melhoria_pessoal norm))

def regraComplexaOuPessoal (orig norm : String) :
    Option (String × List String) :=
  if e_mensagem_complexa_ou_pessoal orig norm then
    some ("user", ["Mensagem com necessidade de personalização/contexto."])
  else none

/-- The `tem_multiplas_frases` of the final fallback block. -/
def temMultiplasFrasesFallback (orig : String) : Bool :=
  decide (2 < ((pySplitOn "." orig).filter (fun s => pyStrip s != "")).length +
    ((pySplitOn "?" orig).filter (fun s => pyStrip s != "")).length +
    ((pySplitOn "!" orig).filter (fun s => pyStrip s != "")).length)

/-- Priority 4: the fallback decision block. -/
def fallbackFinal (orig norm : String) : String × List String :=
  if temMultiplasFrasesFallback orig || decide (150 < orig.length) then
    ("user", ["Mensagem longa ou com múltiplas ideias - requer contexto"])
  else if pronomes_pessoais.any (fun p => py_in p (" " ++ norm ++ " ")) then
    ("user", ["Contém contexto pessoal"])
  else if decide ((pyStrip orig).length < 10) then
    (if algumEm saudacoes_fallback norm then
      ("user", ["Saudação conversacional"])
    else ("unclear", ["Mensagem muito curta sem contexto claro"]))
  else if (palavras_interrogativas.any (fun p => (pySplit norm).contains p) &&
      !(py_in "?" orig)) && !(algumEm palavras_tecnicas_fallback norm) then
    ("unclear", ["Possível pergunta sem contexto claro"])
  else if decide ((pyStrip orig).length < 20) then
    ("unclear", ["Mensagem curta sem indicadores claros de intenção"])
  else ("messages", ["Mensagem genérica - classificação por eliminação"])

/-- The `Classificador.determinar_categoria`: the ordered rule pipeline. -/
def determinar_categoria (env : Ambiente)
    (mensagem_original texto_normalizado : String) : String × List String :=
  match prioridadeZero mensagem_original texto_normalizado with
  | some r => r
  | none =>
  match fraseDeTeste mensagem_original texto_normalizado with
  | some r => r
  | none =>
  match conversacionalClara texto_normalizado with
  | some r => r
  | none =>
  match ambiguidadeContextual mensagem_original texto_normalizado with
  | some r => r
  | none =>
  match regraLongaConversacional mensagem_original texto_normalizado with
  | some r => r
  | none =>
  match regraIncertezaAcao texto_normalizado with
  | some r => r
  | none =>
  match regraPerguntaComOpcoes mensagem_original texto_normalizado with
  | some r => r
  | none =>
  match regraPerguntaCapacidade texto_normalizado with
  | some r => r
  | none =>
  match regraComandoInterno texto_normalizado with
  | some r => r
  | none =>
  match regraApiExterna texto_normalizado with
  | some r => r
  | none =>
  match regraIntegracaoGenerica env texto_normalizado with
  | some r => r
  | none =>
  match regraNarrativaTerceira texto_normalizado with
  | some r => r
  | none =>
  match regraTarefaPessoal texto_normalizado with
  | some r => r
  | none =>
  match regraAjudaGenerica texto_normalizado with
  | some r => r
  | none =>
  match regraSaudacaoInterrogativa mensagem_original texto_normalizado with
  | some r => r
  | none =>
  match regraCondicionalVaga texto_normalizado with
  | some r => r
  | none =>
  match regraComandoObjetoGenerico env mensagem_original texto_normalizado with
  | some r => r
  | none =>
  match regraPerguntaDireta mensagem_original texto_normalizado with
  | some r => r
  | none =>
  match regraPerguntaSpacy env mensagem_original texto_normalizado with
  | some r => r
  | none =>
  match regraComplexaOuPessoal mensagem_original texto_normalizado with
  | some r => r
  | none => fallbackFinal mensagem_original texto_normalizado

/-! Section: Scope detector (`app/services/analisador/detector_scopes.py`)

`SCOPE_CACHE` is imported there from the module `constantes.py`, which is not
in the tree; the detector is therefore parametrized by the pattern table, and
the concrete table is the one `main.py` declares under the same name. -/

/-- The `SCOPE_CACHE` as declared in `main.py` (the `constantes.py` module that
re-exports it to the refactored detector is not in the tree). -/
def SCOPE_CACHE : List (String × List String) :=
  [("agendar reuniao", ["https://www.googleapis.com/auth/calendar"]),
   ("criar evento", ["https://www.googleapis.com/auth/calendar"]),
   ("marcar compromisso", ["https://www.googleapis.com/auth/calendar"]),
   ("enviar email", ["https://www.googleapis.com/auth/gmail.modify"]),
   ("mandar mensagem gmail", ["https://www.googleapis.com/auth/gmail.modify"]),
   ("criar planilha", ["https://www.googleapis.com/auth/spreadsheets"]),
   ("abrir documento", ["https://www.googleapis.com/auth/drive"]),
   ("gerar boleto", ["boleto"])]

def acoes_email : List String :=
  ["envie", "mande", "escreva", "responda", "encaminhe", "send", "reply",
   "forward"]

def palavras_email : List String := ["gmail", "email", "e-mail"]

def acoes_calendario : List String :=
  ["agende", "marque", "crie evento", "adicione evento", "schedule", "book"]

def palavras_calendario : List String :=
  ["calendar", "agenda", "evento", "reuniao", "meeting",
   "aula", "sala", "hoje", "amanha", "hr", ":",
   "segunda", "terca", "quarta", "quinta", "sexta",
   "sabado", "domingo"]

def conectores_multiplas_acoes : List String :=
  ["e depois", "tambem", "alem disso", "and then", "also"]

def temAcaoEmail (norm : String) : Bool := algumEm acoes_email norm

def temPalavraEmail (norm : String) : Bool := algumEm palavras_email norm

def temAcaoCalendario (norm : String) : Bool := algumEm acoes_calendario norm

def temPalavraCalendario (norm : String) : Bool :=
  algumEm palavras_calendario norm

def temMultiplasAcoes (norm : String) : Bool :=
  algumEm conectores_multiplas_acoes norm

def chaveSheets (norm : String) : Bool :=
  algumEm ["sheet", "planilha", "tabela", "spreadsheet"] norm

def chaveDocs (norm : String) : Bool :=
  algumEm ["documento", "document", "doc", "arquivo", "file", "pdf"] norm

def chaveGmail (norm : String) : Bool :=
  algumEm ["gmail", "email", "e-mail"] norm

def chaveBoleto (norm : String) : Bool :=
  algumEm ["boleto", "fatura", "cobranca"] norm

/-- The `DetectorDeScopes.detectar_scopes`, parametrized by the cached pattern
table. -/
def detectar_scopes (tabela : List (String × List String)) (norm : String) :
    List String :=
  match tabela.find? (fun ps => py_in ps.1 norm) with
  | some ps => ps.2
  | none =>
    if (temAcaoEmail norm && temPalavraEmail norm) &&
        (temAcaoCalendario norm || temPalavraCalendario norm) &&
        temMultiplasAcoes norm then
      ["https://mail.google.com/", "https://www.googleapis.com/auth/calendar"]
    else if temAcaoEmail norm && temPalavraEmail norm then
      ["https://mail.google.com/"]
    else if temAcaoCalendario norm &&
        (temPalavraCalendario norm || py_in "compromisso" norm) then
      ["https://www.googleapis.com/auth/calendar"]
    else
      let base :=
        if algumEm ["calendar", "agenda", "evento"] norm then
          ["https://www.googleapis.com/auth/calendar"]
        else if py_in "compromisso" norm && !(temAcaoEmail norm) then
          ["https://www.googleapis.com/auth/calendar"]
        else []
      if chaveSheets norm then
        base ++ ["https://www.googleapis.com/auth/spreadsheets",
          "https://www.googleapis.com/auth/drive"]
      else if chaveDocs norm then
        base ++ ["https://www.googleapis.com/auth/drive",
          "https://www.googleapis.com/auth/documents"]
      else
        ((base ++ (if chaveGmail norm then ["https://mail.google.com/"] else []))
          ++ (if py_in "drive" norm then
                ["https://www.googleapis.com/auth/drive"] else []))
          ++ (if chaveBoleto norm then ["boleto"] else [])

/-! Section: Result cache and orchestration
(`gerenciador_cache.py`, `app/core/metrics.py`, `analisador_principal.py`)

The `TTLCache` of `metrics.py` (TTL 3600 seconds, maxsize 1000) is modelled
as an association list whose entries carry their insertion time; an entry is
served only while `now < inserted + 3600`.  The capacity bound and its LRU
eviction only ever remove entries other than the one just written, so they
are not modelled.  Wall-clock latency fields of the response and the
structured logging are not modelled.  The MD5 key of `gerar_cache_key` is
modelled from the spec as an injective content hash: the identity on the
normalized text. -/

/-- The request payload, reduced to the field the analyzed claims depend on
(`payload.get("message", "")` after `str(...)`). -/
structure Payload where
  message : String

/-- The assembled classification response (`resposta_final` of
`analisador_principal.py` without the prompt payload and latency fields). -/
structure Resultado where
  mensagem_completa : String
  texto_normalizado : String
  bucket : String
  reasons : List String
  scope : List String
  deriving Repr, DecidableEq

/-- The fixed sentinel for empty input
(`_construir_payload_de_erro_para_entrada_vazia`). -/
structure ErroEntradaVazia where
  error : String
  assistantContent : String
  deriving Repr, DecidableEq

/-- The two possible outcomes of `processar_mensagem`. -/
inductive Saida where
  | erro (e : ErroEntradaVazia)
  | ok (r : Resultado)
  deriving Repr, DecidableEq

/-- The `_construir_payload_de_erro_para_entrada_vazia`: the fixed error marker
and fixed assistant message. -/
def construirErroEntradaVazia : ErroEntradaVazia :=
  { error := "EMPTY_INPUT"
    assistantContent := "Não recebi sua mensagem. Pode reenviar, por favor?" }

/-- The `gerar_cache_key`: MD5 of the normalized message, modelled from the spec
as an injective content hash (the identity on the normalized text). -/
def gerar_cache_key (mensagem : String) : String := normalizar_texto mensagem

/-- State of the shared cache and counters (`classificacao_cache` and
`metricas` of `app/core/metrics.py`). -/
structure EstadoCache where
  entradas : List (String × Nat × Resultado)
  hits : Nat
  misses : Nat
  deriving Repr, DecidableEq

/-- Entry lookup of the `TTLCache`: the entry for `key`, if present and not
expired at `now`. -/
def buscarEntradaValida (now : Nat) (key : String) :
    List (String × Nat × Resultado) → Option Resultado
  | [] => none
  | e :: resto =>
    if e.1 == key then
      (if now < e.2.1 + 3600 then some e.2.2 else none)
    else buscarEntradaValida now key resto

/-- The `GerenciadorDeCache.obter_do_cache` together with its metric updates. -/
def obter_do_cache (now : Nat) (key : String) (st : EstadoCache) :
    Option Resultado × EstadoCache :=
  match buscarEntradaValida now key st.entradas with
  | some r => (some r, { st with hits := st.hits + 1 })
  | none => (none, { st with misses := st.misses + 1 })

/-- The `GerenciadorDeCache.salvar_no_cache`: store (replace) the entry. -/
def salvar_no_cache (now : Nat) (key : String) (r : Resultado)
    (st : EstadoCache) : EstadoCache :=
  { st with entradas :=
      (key, now, r) :: st.entradas.filter (fun e => !(e.1 == key)) }

/-- The full pipeline of a cache miss: normalize, classify, detect scopes for
the `system` bucket (`ConstrutorDePayload._criar_prompts_de_sistema`), and
assemble the response. -/
def montarResultado (env : Ambiente) (mensagem_usuario : String) : Resultado :=
  let texto_normalizado := normalizar_texto mensagem_usuario
  let cat := determinar_categoria env mensagem_usuario texto_normalizado
  { mensagem_completa := mensagem_usuario
    texto_normalizado := texto_normalizado
    bucket := cat.1
    reasons := cat.2
    scope :=
      if cat.1 == "system" then detectar_scopes SCOPE_CACHE texto_normalizado
      else [] }

/-- The `AnalisadorDeMensagem.processar_mensagem`: empty-input short circuit,
cache lookup, full pipeline on a miss, storing the result before returning
it. -/
def processar_mensagem (env : Ambiente) (now : Nat) (payload : Payload)
    (st : EstadoCache) : Saida × EstadoCache :=
  let mensagem_usuario := pyStrip payload.message
  if mensagem_usuario == "" then
    (Saida.erro construirErroEntradaVazia, st)
  else
    let cache_key := gerar_cache_key mensagem_usuario
    match obter_do_cache now cache_key st with
    | (some r, st') => (Saida.ok r, st')
    | (none, st') =>
      let resposta := montarResultado env mensagem_usuario
      (Saida.ok resposta, salvar_no_cache now cache_key resposta st')

/-! Section: Structural lemmas about the rule pipeline -/

theorem alt_eq_some {α : Type} {x y : Option α} {r : α}
    (h : (x <|> y) = some r) : x = some r ∨ y = some r := by
  cases x <;> simp_all [HOrElse.hOrElse, OrElse.orElse, Option.orElse]

theorem prioridadeZero_formato {o n : String} {r : String × List String}
    (h : prioridadeZero o n = some r) :
    r.2.length = 1 ∧
      (r.1 = "user" → algumEm saudacoes_comuns n = true ∨
        confirmacoes.contains (pyStrip n) = true) ∧
      (r.1 = "user" ∨ r.1 = "unclear") := by
  unfold prioridadeZero at h
  split_ifs at h <;> first | (cases h; simp_all) | simp_all

theorem fraseDeTeste_formato {o n : String} {r : String × List String}
    (h : fraseDeTeste o n = some r) : r.1 = "unclear" ∧ r.2.length = 1 := by
  unfold fraseDeTeste at h
  split_ifs at h <;> first | (cases h; simp_all) | simp_all

theorem conversacionalClara_formato {n : String} {r : String × List String}
    (h : conversacionalClara n = some r) :
    r.1 = "message" ∧ r.2.length = 1 := by
  unfold conversacionalClara at h
  split_ifs at h <;> first | (cases h; simp_all) | simp_all

theorem regraFrasesResto_formato {n : String} {r : String × List String}
    (h : regraFrasesResto n = some r) : r.1 = "unclear" ∧ r.2.length = 1 := by
  unfold regraFrasesResto at h
  split_ifs at h <;> first | (cases h; simp_all) | simp_all

theorem regraPronomeAmbiguo_formato {o n : String} {r : String × List String}
    (h : regraPronomeAmbiguo o n = some r) :
    r.1 = "unclear" ∧ r.2.length = 1 := by
  unfold regraPronomeAmbiguo at h
  split at h <;> first | (cases h; simp_all) | simp_all

theorem regraReferenciaTemporal_formato {n : String} {r : String × List String}
    (h : regraReferenciaTemporal n = some r) :
    r.1 = "unclear" ∧ r.2.length = 1 := by
  unfold regraReferenciaTemporal at h
  split_ifs at h <;> first | (cases h; simp_all) | simp_all

theorem regraTermosVagos_formato {n : String} {r : String × List String}
    (h : regraTermosVagos n = some r) : r.1 = "unclear" ∧ r.2.length = 1 := by
  unfold regraTermosVagos at h
  split_ifs at h <;> first | (cases h; simp_all) | simp_all

theorem regraCondicoesIndefinidas_formato {n : String}
    {r : String × List String} (h : regraCondicoesIndefinidas n = some r) :
    r.1 = "unclear" ∧ r.2.length = 1 := by
  unfold regraCondicoesIndefinidas at h
  split_ifs at h <;> first | (cases h; simp_all) | simp_all

theorem regraAcaoObjetoGenerico_formato {n : String} {r : String × List String}
    (h : regraAcaoObjetoGenerico n = some r) :
    r.1 = "unclear" ∧ r.2.length = 1 := by
  unfold regraAcaoObjetoGenerico at h
  split at h
  · split_ifs at h <;> first | (cases h; simp_all) | simp_all
  · simp_all

theorem regraDeNovo_formato {n : String} {r : String × List String}
    (h : regraDeNovo n = some r) : r.1 = "unclear" ∧ r.2.length = 1 := by
  unfold regraDeNovo at h
  split_ifs at h <;> first | (cases h; simp_all) | simp_all

theorem regraDestinosGenericos_formato {n : String} {r : String × List String}
    (h : regraDestinosGenericos n = some r) :
    r.1 = "unclear" ∧ r.2.length = 1 := by
  unfold regraDestinosGenericos at h
  split at h
  · split_ifs at h <;> first | (cases h; simp_all) | simp_all
  · simp_all

theorem regraOutrosDestinos_formato {n : String} {r : String × List String}
    (h : regraOutrosDestinos n = some r) :
    r.1 = "unclear" ∧ r.2.length = 1 := by
  unfold regraOutrosDestinos at h
  split at h
  · split_ifs at h <;> first | (cases h; simp_all) | simp_all
  · simp_all

theorem regraDuplaIntencao_formato {n : String} {r : String × List String}
    (h : regraDuplaIntencao n = some r) :
    r.1 = "unclear" ∧ r.2.length = 1 := by
  unfold regraDuplaIntencao at h
  split_ifs at h <;> first | (cases h; simp_all) | simp_all

theorem regraPolissemicos_formato {n : String} {r : String × List String}
    (h : regraPolissemicos n = some r) :
    r.1 = "unclear" ∧ r.2.length = 1 := by
  unfold regraPolissemicos at h
  split at h <;> first | (cases h; simp_all) | simp_all

/-- Every ambiguity detector of priority 0.2 yields the category `unclear`
and a single reason. -/
theorem ambiguidadeContextual_formato {o n : String} {r : String × List String}
    (h : ambiguidadeContextual o n = some r) :
    r.1 = "unclear" ∧ r.2.length = 1 := by
  unfold ambiguidadeContextual at h
  rcases alt_eq_some h with h | h
  · exact regraFrasesResto_formato h
  rcases alt_eq_some h with h | h
  · exact regraPronomeAmbiguo_formato h
  rcases alt_eq_some h with h | h
  · exact regraReferenciaTemporal_formato h
  rcases alt_eq_some h with h | h
  · exact regraTermosVagos_formato h
  rcases alt_eq_some h with h | h
  · exact regraCondicoesIndefinidas_formato h
  rcases alt_eq_some h with h | h
  · exact regraAcaoObjetoGenerico_formato h
  rcases alt_eq_some h with h | h
  · exact regraDeNovo_formato h
  rcases alt_eq_some h with h | h
  · exact regraDestinosGenericos_formato h
  rcases alt_eq_some h with h | h
  · exact regraOutrosDestinos_formato h
  rcases alt_eq_some h with h | h
  · exact regraDuplaIntencao_formato h
  · exact regraPolissemicos_formato h

theorem regraLongaConversacional_formato {o n : String}
    {r : String × List String} (h : regraLongaConversacional o n = some r) :
    r.2.length = 1 := by
  unfold regraLongaConversacional at h
  split_ifs at h <;> first | (cases h; simp_all) | simp_all

theorem regraIncertezaAcao_formato {n : String} {r : String × List String}
    (h : regraIncertezaAcao n = some r) : r.2.length = 1 := by
  unfold regraIncertezaAcao at h
  split_ifs at h <;> first | (cases h; simp_all) | simp_all

theorem regraPerguntaComOpcoes_formato {o n : String}
    {r : String × List String} (h : regraPerguntaComOpcoes o n = some r) :
    r.2.length = 1 := by
  unfold regraPerguntaComOpcoes at h
  split_ifs at h <;> first | (cases h; simp_all) | simp_all

theorem regraPerguntaCapacidade_formato {n : String} {r : String × List String}
    (h : regraPerguntaCapacidade n = some r) : r.2.length = 1 := by
  unfold regraPerguntaCapacidade at h
  split_ifs at h <;> first | (cases h; simp_all) | simp_all

theorem regraComandoInterno_formato {n : String} {r : String × List String}
    (h : regraComandoInterno n = some r) : r.2.length = 1 := by
  unfold regraComandoInterno at h
  split_ifs at h <;> first | (cases h; simp_all) | simp_all

theorem regraApiExterna_formato {n : String} {r : String × List String}
    (h : regraApiExterna n = some r) : r.2.length = 1 := by
  unfold regraApiExterna at h
  split_ifs at h <;> first | (cases h; simp_all) | simp_all

theorem regraIntegracaoGenerica_formato {env : Ambiente} {n : String}
    {r : String × List String} (h : regraIntegracaoGenerica env n = some r) :
    r.2.length = 1 := by
  unfold regraIntegracaoGenerica at h
  split_ifs at h <;> first | (cases h; simp_all) | simp_all

theorem regraNarrativaTerceira_formato {n : String} {r : String × List String}
    (h : regraNarrativaTerceira n = some r) : r.2.length = 1 := by
  unfold regraNarrativaTerceira at h
  split_ifs at h <;> first | (cases h; simp_all) | simp_all

theorem regraTarefaPessoal_formato {n : String} {r : String × List String}
    (h : regraTarefaPessoal n = some r) : r.2.length = 1 := by
  unfold regraTarefaPessoal at h
  split_ifs at h <;> first | (cases h; simp_all) | simp_all

theorem regraAjudaGenerica_formato {n : String} {r : String × List String}
    (h : regraAjudaGenerica n = some r) : r.2.length = 1 := by
  unfold regraAjudaGenerica at h
  split_ifs at h <;> first | (cases h; simp_all) | simp_all

theorem regraSaudacaoInterrogativa_formato {o n : String}
    {r : String × List String} (h : regraSaudacaoInterrogativa o n = some r) :
    r.2.length = 1 := by
  unfold regraSaudacaoInterrogativa at h
  split_ifs at h <;> first | (cases h; simp_all) | simp_all

theorem regraCondicionalVaga_formato {n : String} {r : String × List String}
    (h : regraCondicionalVaga n = some r) : r.2.length = 1 := by
  unfold regraCondicionalVaga at h
  split_ifs at h <;> first | (cases h; simp_all) | simp_all

theorem regraComandoObjetoGenerico_formato {env : Ambiente} {o n : String}
    {r : String × List String}
    (h : regraComandoObjetoGenerico env o n = some r) : r.2.length = 1 := by
  unfold regraComandoObjetoGenerico at h
  split_ifs at h <;> first | (cases h; simp_all) | simp_all

theorem regraPerguntaDireta_formato {o n : String} {r : String × List String}
    (h : regraPerguntaDireta o n = some r) : r.2.length = 1 := by
  unfold regraPerguntaDireta at h
  split_ifs at h <;> first | (cases h; simp_all) | simp_all

theorem regraPerguntaSpacy_formato {env : Ambiente} {o n : String}
    {r : String × List String} (h : regraPerguntaSpacy env o n = some r) :
    r.2.length = 1 := by
  unfold regraPerguntaSpacy at h
  split_ifs at h <;> first | (cases h; simp_all) | simp_all

theorem regraComplexaOuPessoal_formato {o n : String}
    {r : String × List String} (h : regraComplexaOuPessoal o n = some r) :
    r.2.length = 1 := by
  unfold regraComplexaOuPessoal at h
  split_ifs at h <;> first | (cases h; simp_all) | simp_all

theorem fallbackFinal_formato (o n : String) :
    (fallbackFinal o n).2.length = 1 := by
  unfold fallbackFinal
  split_ifs <;> simp

/-- C10: for every pair (original message, normalized text) and every
environment, the reasons list returned by `determinar_categoria` is a
singleton: every return branch of the function yields a one-element list. -/
theorem C10_motivos_singular (env : Ambiente) (o n : String) :
    ((determinar_categoria env o n).2).length = 1 := by
  unfold determinar_categoria
  split
  next r h => exact (prioridadeZero_formato h).1
  next =>
    split
    next r h => exact (fraseDeTeste_formato h).2
    next =>
      split
      next r h => exact (conversacionalClara_formato h).2
      next =>
        split
        next r h => exact (ambiguidadeContextual_formato h).2
        next =>
          split
          next r h => exact regraLongaConversacional_formato h
          next =>
            split
            next r h => exact regraIncertezaAcao_formato h
            next =>
              split
              next r h => exact regraPerguntaComOpcoes_formato h
              next =>
                split
                next r h => exact regraPerguntaCapacidade_formato h
                next =>
                  split
                  next r h => exact regraComandoInterno_formato h
                  next =>
                    split
                    next r h => exact regraApiExterna_formato h
                    next =>
                      split
                      next r h => exact regraIntegracaoGenerica_formato h
                      next =>
                        split
                        next r h => exact regraNarrativaTerceira_formato h
                        next =>
                          split
                          next r h => exact regraTarefaPessoal_formato h
                          next =>
                            split
                            next r h => exact regraAjudaGenerica_formato h
                            next =>
                              split
                              next r h => exact regraSaudacaoInterrogativa_formato h
                              next =>
                                split
                                next r h => exact regraCondicionalVaga_formato h
                                next =>
                                  split
                                  next r h => exact regraComandoObjetoGenerico_formato h
                                  next =>
                                    split
                                    next r h => exact regraPerguntaDireta_formato h
                                    next =>
                                      split
                                      next r h => exact regraPerguntaSpacy_formato h
                                      next =>
                                        split
                                        next r h => exact regraComplexaOuPessoal_formato h
                                        next =>
                                          exact fallbackFinal_formato o n

/-- C1: the category contract {system, messages, user, unclear} is broken by
the conversational-acknowledgement branch, which returns the category string
"message" (not "messages"): evaluated at the acknowledgement "obrigado", the
classifier returns a category outside the four buckets, contradicting its own
docstring. -/
theorem C1_balde_fora_do_contrato :
    determinar_categoria envPadrao "obrigado" "obrigado" =
      ("message", ["Mensagem conversacional (confirmação/feedback)"]) ∧
    (["system", "messages", "user", "unclear"].contains
      (determinar_categoria envPadrao "obrigado" "obrigado").1) = false := by
  constructor <;> decide

/-- C2 counterexample: a message that matches a group-2 ambiguity pattern
(dangling " pra ela" with no proper-noun antecedent) and a group-5
integration pattern, yet is classified "message" (not "unclear") because the
conversational-acknowledgement lexicon ("beleza") matches first. -/
theorem C2_contraexemplo :
    (ambiguidadeContextual
        "beleza, manda o contrato pra ela no email @rh"
        "beleza, manda o contrato pra ela no email @rh").isSome = true ∧
    grupo5_integracao envPadrao
        "beleza, manda o contrato pra ela no email @rh" = true ∧
    (determinar_categoria envPadrao
        "beleza, manda o contrato pra ela no email @rh"
        "beleza, manda o contrato pra ela no email @rh").1 = "message" := by
  refine ⟨?_, ?_, ?_⟩ <;> decide

/-- C2 (amended): for every environment and every message on which the
earlier very-short-message pre-filters yield nothing or "unclear" and the
conversational-acknowledgement lexicon does not match, matching a group-2
ambiguity detector short-circuits the group-5 integration rule: the category
is "unclear" whenever both match. -/
theorem C2_precedencia_emendada (env : Ambiente) (o n : String)
    (h0 : prioridadeZero o n = none ∨
      (prioridadeZero o n).map Prod.fst = some "unclear")
    (hconv : conversacionalClara n = none)
    (hamb : (ambiguidadeContextual o n).isSome = true)
    (h5 : grupo5_integracao env n = true) :
    (determinar_categoria env o n).1 = "unclear" := by
  unfold determinar_categoria
  rcases h0 with h0 | h0
  · simp only [h0]
    split
    next r h => exact (fraseDeTeste_formato h).1
    next =>
      simp only [hconv]
      split
      next r h => exact (ambiguidadeContextual_formato h).1
      next hnone => rw [hnone] at hamb; simp at hamb
  · rcases Option.map_eq_some'.mp h0 with ⟨r, hr, hr1⟩
    simp only [hr, hr1]

/-- C2 witness input: "manda o documento pra ela agora" satisfies every
hypothesis of the amended precedence theorem and is classified unclear. -/
theorem C2_precedencia_emendada_witness :
    (prioridadeZero "manda o documento pra ela agora"
        "manda o documento pra ela agora" = none ∨
      (prioridadeZero "manda o documento pra ela agora"
        "manda o documento pra ela agora").map Prod.fst = some "unclear") ∧
    conversacionalClara "manda o documento pra ela agora" = none ∧
    (ambiguidadeContextual "manda o documento pra ela agora"
      "manda o documento pra ela agora").isSome = true ∧
    grupo5_integracao envPadrao "manda o documento pra ela agora" = true ∧
    (determinar_categoria envPadrao "manda o documento pra ela agora"
      "manda o documento pra ela agora").1 = "unclear" :=
  ⟨Or.inl (by decide), by decide, by decide, by decide,
    C2_precedencia_emendada envPadrao _ _ (Or.inl (by decide)) (by decide)
      (by decide) (by decide)⟩

/-- C4 counterexample: "meu carro" has 9 characters, 2 words, matches neither
the greeting nor the confirmation lexicon, yet is classified "user" (personal
context), not "unclear": short unknown messages fall through to the later
rule groups. -/
theorem C4_contraexemplo :
    (pyStrip "meu carro").length ≤ 15 ∧ numPalavras "meu carro" ≤ 2 ∧
    algumEm saudacoes_comuns "meu carro" = false ∧
    confirmacoes.contains (pyStrip "meu carro") = false ∧
    (determinar_categoria envPadrao "meu carro" "meu carro").1 = "user" := by
  refine ⟨?_, ?_, ?_, ?_, ?_⟩ <;> decide

/-- A very short message outside the greeting/confirmation lexicon that
matches one of the incomplete-fragment patterns makes the priority-0 group
return "unclear". -/
theorem prioridadeZero_fragmento {o n : String}
    (hc : (pyStrip o).length ≤ 15) (hp : numPalavras n ≤ 2)
    (hs : algumEm saudacoes_comuns n = false)
    (hcf : confirmacoes.contains (pyStrip n) = false)
    (hfrag : algumEm incertezas n = true ∨
      palavras_genericas_curta.any (fun p => p == pyStrip n) = true ∨
      pronomes_demonstrativos.contains (pyStrip n) = true ∨
      interrogativas_sozinhas.contains (pyStrip n) = true ∨
      (numPalavras n = 1 ∧ (pyStrip n).length < 6)) :
    ∃ m, prioridadeZero o n = some ("unclear", m) := by
  unfold prioridadeZero
  split_ifs <;>
    first
      | exact ⟨_, rfl⟩
      | (exfalso; rcases hfrag with h | h | h | h | h <;> simp_all)

/-- C4 (amended): a ≤15-character, ≤2-word message absent from the
greeting/confirmation lexicon routes to unclear when it matches one of the
incomplete-fragment patterns of the same group (uncertainty phrase, lone
generic word, lone demonstrative, lone interrogative word, or a single word
shorter than 6 characters); otherwise it falls through to the later
groups. -/
theorem C4_curta_emendada (env : Ambiente) (o n : String)
    (hc : (pyStrip o).length ≤ 15) (hp : numPalavras n ≤ 2)
    (hs : algumEm saudacoes_comuns n = false)
    (hcf : confirmacoes.contains (pyStrip n) = false)
    (hfrag : algumEm incertezas n = true ∨
      palavras_genericas_curta.any (fun p => p == pyStrip n) = true ∨
      pronomes_demonstrativos.contains (pyStrip n) = true ∨
      interrogativas_sozinhas.contains (pyStrip n) = true ∨
      (numPalavras n = 1 ∧ (pyStrip n).length < 6)) :
    (determinar_categoria env o n).1 = "unclear" := by
  obtain ⟨m, hm⟩ := prioridadeZero_fragmento hc hp hs hcf hfrag
  unfold determinar_categoria
  simp only [hm]

/-- C4 witness input: the uncertainty fragment "sei la". -/
theorem C4_curta_emendada_witness :
    (pyStrip "sei la").length ≤ 15 ∧ numPalavras "sei la" ≤ 2 ∧
    algumEm saudacoes_comuns "sei la" = false ∧
    confirmacoes.contains (pyStrip "sei la") = false ∧
    (algumEm incertezas "sei la" = true ∨
      palavras_genericas_curta.any (fun p => p == pyStrip "sei la") = true ∨
      pronomes_demonstrativos.contains (pyStrip "sei la") = true ∨
      interrogativas_sozinhas.contains (pyStrip "sei la") = true ∨
      (numPalavras "sei la" = 1 ∧ (pyStrip "sei la").length < 6)) ∧
    (determinar_categoria envPadrao "sei la" "sei la").1 = "unclear" :=
  ⟨by decide, by decide, by decide, by decide, by decide,
    C4_curta_emendada envPadrao "sei la" "sei la" (by decide) (by decide)
      (by decide) (by decide) (by decide)⟩

/-- C3 counterexample: "mande por email a planilha do cache atualizado" is
classified system (internal-control rule) and contains the spreadsheet
keyword "planilha", yet the scope detector returns the single mail scope: the
email-action branch precedes and suppresses the coupled spreadsheet+drive
pair. -/
theorem C3_contraexemplo :
    (determinar_categoria envPadrao
        "mande por email a planilha do cache atualizado"
        "mande por email a planilha do cache atualizado").1 = "system" ∧
    py_in "planilha" "mande por email a planilha do cache atualizado" = true ∧
    detectar_scopes SCOPE_CACHE
        "mande por email a planilha do cache atualizado" =
      ["https://mail.google.com/"] := by
  refine ⟨?_, ?_, ?_⟩ <;> decide

/-- C3 (amended): for every system-classified message containing a
spreadsheet keyword, the detector returns exactly the coupled
spreadsheet+drive pair provided no cached pattern matches and no
higher-priority email/calendar branch fires; a higher-priority branch returns
its own scopes instead. -/
theorem C3_sheets_emendado (env : Ambiente)
    (tabela : List (String × List String)) (o n : String)
    (hsys : (determinar_categoria env o n).1 = "system")
    (htab : tabela.find? (fun ps => py_in ps.1 n) = none)
    (hmail : (temAcaoEmail n && temPalavraEmail n) = false)
    (hcal : (temAcaoCalendario n &&
      (temPalavraCalendario n || py_in "compromisso" n)) = false)
    (hkw : algumEm ["calendar", "agenda", "evento"] n = false)
    (hcomp : (py_in "compromisso" n && !(temAcaoEmail n)) = false)
    (hsheet : chaveSheets n = true) :
    detectar_scopes tabela n =
      ["https://www.googleapis.com/auth/spreadsheets",
       "https://www.googleapis.com/auth/drive"] := by
  unfold detectar_scopes
  rw [htab]
  simp only [hmail, hcal, hkw, hcomp, hsheet, Bool.false_and, Bool.and_false,
    Bool.false_eq_true, if_false, if_true, List.nil_append]

/-- C3 witness input: "atualiza o cache da planilha" is classified system and
receives exactly the spreadsheet and drive scopes. -/
theorem C3_sheets_emendado_witness :
    (determinar_categoria envPadrao "atualiza o cache da planilha"
      "atualiza o cache da planilha").1 = "system" ∧
    SCOPE_CACHE.find?
      (fun ps => py_in ps.1 "atualiza o cache da planilha") = none ∧
    (temAcaoEmail "atualiza o cache da planilha" &&
      temPalavraEmail "atualiza o cache da planilha") = false ∧
    (temAcaoCalendario "atualiza o cache da planilha" &&
      (temPalavraCalendario "atualiza o cache da planilha" ||
        py_in "compromisso" "atualiza o cache da planilha")) = false ∧
    algumEm ["calendar", "agenda", "evento"]
      "atualiza o cache da planilha" = false ∧
    (py_in "compromisso" "atualiza o cache da planilha" &&
      !(temAcaoEmail "atualiza o cache da planilha")) = false ∧
    chaveSheets "atualiza o cache da planilha" = true ∧
    detectar_scopes SCOPE_CACHE "atualiza o cache da planilha" =
      ["https://www.googleapis.com/auth/spreadsheets",
       "https://www.googleapis.com/auth/drive"] :=
  ⟨by decide, by decide, by decide, by decide, by decide, by decide, by decide,
    C3_sheets_emendado envPadrao SCOPE_CACHE "atualiza o cache da planilha"
      "atualiza o cache da planilha" (by decide) (by decide) (by decide)
      (by decide) (by decide) (by decide) (by decide)⟩

/-- C6: a key of the static dictionary is always resolved by the static
dictionary, whatever the learned dictionary or the spaCy collaborator
contain. -/
theorem C6_estatico_tem_precedencia (env : Ambiente) (w v : String)
    (h : dictLookup MAPEAMENTO_VERBOS w = some v) :
    lematizar_palavra env w = v := by
  unfold lematizar_palavra
  rw [h]

/-- C6 witness input: "exclua" maps to "excluir" even when the learned
dictionary binds the same key to a different value. -/
theorem C6_estatico_tem_precedencia_witness :
    dictLookup MAPEAMENTO_VERBOS "exclua" = some "excluir" ∧
    lematizar_palavra
      { envPadrao with aprendido := [("exclua", "excluido")] } "exclua" =
      "excluir" :=
  ⟨by decide,
    C6_estatico_tem_precedencia
      { envPadrao with aprendido := [("exclua", "excluido")] }
      "exclua" "excluir" (by decide)⟩

/-- Every infinitive produced by the static dictionary is itself a static
key mapped to itself. -/
theorem valores_estaticos_sao_fixos :
    VERBOS_INFINITIVOS.all
      (fun v => dictLookup MAPEAMENTO_VERBOS v == some v) = true := by decide

/-- C7: the lemmatizer is idempotent on every key of the static verb
dictionary, for every environment. -/
theorem C7_lematizar_idempotente (env : Ambiente) (w : String)
    (h : (dictLookup MAPEAMENTO_VERBOS w).isSome = true) :
    lematizar_palavra env (lematizar_palavra env w) =
      lematizar_palavra env w := by
  rcases Option.isSome_iff_exists.mp h with ⟨v, hv⟩
  have hmem : v ∈ VERBOS_INFINITIVOS := by
    rcases Option.map_eq_some'.mp hv with ⟨kv, hfind, hsnd⟩
    have : kv ∈ MAPEAMENTO_VERBOS := List.mem_of_find?_eq_some hfind
    unfold VERBOS_INFINITIVOS
    exact List.mem_dedup.mpr (hsnd ▸ List.mem_map_of_mem (fun p => p.2) this)
  have hfix : dictLookup MAPEAMENTO_VERBOS v = some v := by
    have := List.all_eq_true.mp valores_estaticos_sao_fixos v hmem
    exact eq_of_beq this
  have h1 : lematizar_palavra env w = v := by
    unfold lematizar_palavra; rw [hv]
  have h2 : lematizar_palavra env v = v := by
    unfold lematizar_palavra; rw [hfix]
  rw [h1, h2]

/-- C7 witness input: "enviando". -/
theorem C7_lematizar_idempotente_witness :
    (dictLookup MAPEAMENTO_VERBOS "enviando").isSome = true ∧
    lematizar_palavra envPadrao (lematizar_palavra envPadrao "enviando") =
      lematizar_palavra envPadrao "enviando" :=
  ⟨by decide, C7_lematizar_idempotente envPadrao "enviando" (by decide)⟩

/-! Section: Normalizer claims -/

theorem charwise_latino :
    (((List.range 128).map Char.ofNat) ++ letrasAcentuadas).all
      (fun c => unidecodeChar (pyLowerChar c) == [letraBaseMinuscula c]) =
      true := by decide

/-- On the Latin domain, lowering then transliterating one character is
exactly the spec-side lower-case-and-strip-diacritic map. -/
theorem unidecode_lower_base {c : Char} (h : ehLatinoSimples c = true) :
    unidecodeChar (pyLowerChar c) = [letraBaseMinuscula c] := by
  have hc : c ∈ ((List.range 128).map Char.ofNat) ++ letrasAcentuadas := by
    unfold ehLatinoSimples at h
    rw [Bool.or_eq_true] at h
    rcases h with h | h
    · refine List.mem_append.mpr (Or.inl ?_)
      exact List.mem_map.mpr
        ⟨c.toNat, List.mem_range.mpr (of_decide_eq_true h), Char.ofNat_toNat c⟩
    · exact List.mem_append.mpr (Or.inr (List.mem_of_elem_eq_true h))
  exact eq_of_beq (List.all_eq_true.mp charwise_latino c hc)

theorem lista_normaliza {l : List Char} (h : l.all ehLatinoSimples = true) :
    ((l.map pyLowerChar).map unidecodeChar).flatten =
      l.map letraBaseMinuscula := by
  induction l with
  | nil => simp
  | cons c cs ih =>
    rw [List.all_cons, Bool.and_eq_true] at h
    simp only [List.map_cons, List.flatten_cons]
    rw [unidecode_lower_base h.1, ih h.2]
    simp

/-- C8 counterexample: the sharp s has no diacritic, yet `normalizar_texto`
transliterates it to "ss" instead of preserving it: the output differs from
the lower-cased, diacritic-stripped, otherwise-preserving contract. -/
theorem C8_contraexemplo :
    normalizar_texto "ß" = "ss" ∧
    String.mk ("ß".data.map letraBaseMinuscula) = "ß" ∧
    normalizar_texto "ß" ≠ String.mk ("ß".data.map letraBaseMinuscula) := by
  refine ⟨?_, ?_, ?_⟩ <;> decide

/-- C8 (amended): on every text whose characters are ASCII or accented Latin
letters, `normalizar_texto` returns the text lower-cased with diacritics
removed and every other character preserved, and it is pure and total;
characters outside that range are transliterated or dropped by the
`unidecode` dependency rather than preserved. -/
theorem C8_normalizador_emendado (s : String)
    (h : s.data.all ehLatinoSimples = true) :
    normalizar_texto s = String.mk (s.data.map letraBaseMinuscula) := by
  unfold normalizar_texto
  rw [lista_normaliza h]

/-- C8 witness input: an accented Portuguese sentence. -/
theorem C8_normalizador_emendado_witness :
    ("Olá, CAFÉ é ótimo!".data.all ehLatinoSimples) = true ∧
    normalizar_texto "Olá, CAFÉ é ótimo!" =
      String.mk ("Olá, CAFÉ é ótimo!".data.map letraBaseMinuscula) ∧
    normalizar_texto "Olá, CAFÉ é ótimo!" = "ola, cafe e otimo!" :=
  ⟨by decide, C8_normalizador_emendado _ (by decide), by decide⟩

/-! Section: Orchestration claims -/

/-- C9: a payload whose message is empty after trimming yields the fixed
EMPTY_INPUT sentinel with the fixed assistant message, leaves the cache and
counters untouched (the classifier is never invoked), and raises no
exception (the embedding is total). -/
theorem C9_entrada_vazia (env : Ambiente) (now : Nat) (p : Payload)
    (st : EstadoCache) (h : pyStrip p.message = "") :
    processar_mensagem env now p st =
      (Saida.erro
        { error := "EMPTY_INPUT",
          assistantContent :=
            "Não recebi sua mensagem. Pode reenviar, por favor?" }, st) := by
  unfold processar_mensagem
  simp [h, construirErroEntradaVazia]

/-- C9 witness input: a whitespace-only message. -/
theorem C9_entrada_vazia_witness :
    pyStrip "   " = "" ∧
    processar_mensagem envPadrao 0 { message := "   " }
        { entradas := [], hits := 0, misses := 0 } =
      (Saida.erro
        { error := "EMPTY_INPUT",
          assistantContent :=
            "Não recebi sua mensagem. Pode reenviar, por favor?" },
       { entradas := [], hits := 0, misses := 0 }) :=
  ⟨by decide,
    C9_entrada_vazia envPadrao 0 { message := "   " }
      { entradas := [], hits := 0, misses := 0 } (by decide)⟩

/-- C5: a first call with a novel content key is a cache miss that stores the
assembled result before returning it, and a second call within the TTL on
the unchanged state is a cache hit returning exactly the stored result. -/
theorem C5_cache_perde_e_acerta (env : Ambiente) (now now' : Nat)
    (p : Payload) (st : EstadoCache)
    (hne : (pyStrip p.message == "") = false)
    (hmiss : buscarEntradaValida now (gerar_cache_key (pyStrip p.message))
      st.entradas = none)
    (httl : now' < now + 3600) :
    processar_mensagem env now p st =
      (Saida.ok (montarResultado env (pyStrip p.message)),
        salvar_no_cache now (gerar_cache_key (pyStrip p.message))
          (montarResultado env (pyStrip p.message))
          { st with misses := st.misses + 1 }) ∧
    processar_mensagem env now' p (processar_mensagem env now p st).2 =
      (Saida.ok (montarResultado env (pyStrip p.message)),
        { (processar_mensagem env now p st).2 with
            hits := (processar_mensagem env now p st).2.hits + 1 }) := by
  have h1 : processar_mensagem env now p st =
      (Saida.ok (montarResultado env (pyStrip p.message)),
        salvar_no_cache now (gerar_cache_key (pyStrip p.message))
          (montarResultado env (pyStrip p.message))
          { st with misses := st.misses + 1 }) := by
    unfold processar_mensagem obter_do_cache
    simp only [hne, Bool.false_eq_true, if_false, hmiss]
  refine ⟨h1, ?_⟩
  rw [h1]
  unfold processar_mensagem obter_do_cache
  simp only [hne, Bool.false_eq_true, if_false]
  unfold salvar_no_cache buscarEntradaValida
  simp only [beq_self_eq_true, if_true, httl, if_pos]

/-- C5 witness input: the message "oi" against the empty cache, with the
second call 10 seconds after the first. -/
theorem C5_cache_perde_e_acerta_witness :
    ((pyStrip "oi" == "") = false ∧
     buscarEntradaValida 0 (gerar_cache_key (pyStrip "oi"))
       (EstadoCache.entradas
         { entradas := [], hits := 0, misses := 0 }) = none ∧
     (10 : Nat) < 0 + 3600) ∧
    (processar_mensagem envPadrao 0 { message := "oi" }
         { entradas := [], hits := 0, misses := 0 } =
       (Saida.ok (montarResultado envPadrao (pyStrip "oi")),
         salvar_no_cache 0 (gerar_cache_key (pyStrip "oi"))
           (montarResultado envPadrao (pyStrip "oi"))
           { entradas := [], hits := 0, misses := 0 + 1 }) ∧
     processar_mensagem envPadrao 10 { message := "oi" }
         (processar_mensagem envPadrao 0 { message := "oi" }
           { entradas := [], hits := 0, misses := 0 }).2 =
       (Saida.ok (montarResultado envPadrao (pyStrip "oi")),
         { (processar_mensagem envPadrao 0 { message := "oi" }
             { entradas := [], hits := 0, misses := 0 }).2 with
             hits := (processar_mensagem envPadrao 0 { message := "oi" }
               { entradas := [], hits := 0, misses := 0 }).2.hits + 1 })) :=
  ⟨⟨by decide, by decide, by decide⟩,
    C5_cache_perde_e_acerta envPadrao 0 10 { message := "oi" }
      { entradas := [], hits := 0, misses := 0 } (by decide) (by decide)
      (by decide)⟩
